import Mathlib

/-!
# Verification of the smart-ride-sharing core (matching / routing / pricing / booking)

Shallow embedding of the TypeScript sources:
* `src/algorithms/distance.ts`, `src/algorithms/routing.ts`, `src/algorithms/matching.ts`
* the `PricingEngine` (`src/algorithms/pricing.ts`)
* the `RideService` coordinator and `RideCompletionService`
  (booking / cancellation / completion transactions against the relational store).

JavaScript `number`s are modelled as `ℚ`.  The haversine distance
(`calculateDistance`) and the service-level `calculatePassengerDistance` use
floating-point transcendental functions (`sin`, `atan2`, `sqrt`); their exact
values are not representable in an executable embedding, so every definition
that calls them is parametrised by an abstract distance function
`dist : Location → Location → ℚ` (resp. `pdist`).  All structural theorems are
proved for every such function; concrete evaluations instantiate it with
simple exact metrics on the chosen coordinates.

`Array.prototype.sort` (ES2019) is stable, so the score ranking is modelled by
a stable descending insertion sort.  The permutation search of `routing.ts`
enumerates permutations by index-swap recursion; we use `List.permutations`,
which yields the same multiset of routes — only the tie-break among
equal-distance routes can differ, and no theorem below depends on it.
-/

/-- `Location` from `src/types/index.ts` (latitude / longitude / optional address). -/
structure Location where
  latitude : ℚ
  longitude : ℚ
  address : Option String
deriving DecidableEq, Repr

/-- `LuggageSize` enum: SMALL = 1, MEDIUM = 2, LARGE = 3. -/
inductive LuggageSize where
  | SMALL
  | MEDIUM
  | LARGE
deriving DecidableEq, Repr

/-- Numeric value of the `LuggageSize` enum (the TS enum members are numbers,
summed directly in `checkConstraints`). -/
def LuggageSize.units : LuggageSize → ℕ
  | .SMALL => 1
  | .MEDIUM => 2
  | .LARGE => 3

/-- `RideStatus` enum from `src/types/index.ts`. -/
inductive RideStatus where
  | PENDING
  | MATCHED
  | CONFIRMED
  | IN_PROGRESS
  | COMPLETED
  | CANCELLED
deriving DecidableEq, Repr

/-- `RideRequest` from `src/types/index.ts`.  `requestedAt` (a timestamp,
unused by the algorithms under verification) is carried as an integer. -/
structure RideRequest where
  id : String
  userId : String
  pickup : Location
  dropoff : Location
  requestedAt : ℤ
  passengers : ℕ
  luggage : List LuggageSize
  maxDetourMinutes : ℚ
  status : RideStatus
  version : ℕ
deriving DecidableEq, Repr

/-- `calculateRouteDistance` from `distance.ts`: sum of consecutive
point-to-point distances along a route. -/
def calculateRouteDistance (dist : Location → Location → ℚ) : List Location → ℚ
  | a :: b :: rest => dist a b + calculateRouteDistance dist (b :: rest)
  | _ => 0

/-- `estimateTravelTime` from `distance.ts`: `Math.ceil(km / 40 * 60)`. -/
def estimateTravelTime (distanceKm : ℚ) : ℚ :=
  (⌈distanceKm / 40 * 60⌉ : ℤ)

/-! ## Pricing Engine (`PricingEngine`) -/

/-- `PricingParams` from `src/types/index.ts`, including the optional
`totalPassengersInRide` extension used by `calculateFare`. -/
structure PricingParams where
  baseDistance : ℚ
  actualDistance : ℚ
  passengers : ℕ
  surgeFactor : ℚ
  timeOfDay : ℤ
  totalPassengersInRide : Option ℕ
deriving DecidableEq, Repr

/-- `BASE_FARE = 5.0`. -/
def BASE_FARE : ℚ := 5
/-- `RATE_PER_KM = 2.5`. -/
def RATE_PER_KM : ℚ := 5 / 2
/-- `MIN_FARE = 8.0`. -/
def MIN_FARE : ℚ := 8

/-- `getTimeMultiplier`: 1.5 on 7–9 and 17–19, 1.3 on 23–24 and 0–5, else 1. -/
def getTimeMultiplier (hour : ℤ) : ℚ :=
  if 7 ≤ hour ∧ hour < 9 then 3 / 2
  else if 17 ≤ hour ∧ hour < 19 then 3 / 2
  else if 23 ≤ hour ∨ hour < 5 then 13 / 10
  else 1

/-- `getPoolingDiscount`: switch on the passenger count, `default: 0.40`
(so any count other than 1, 2, 3 falls to 40%, exactly as the TS `switch`). -/
def getPoolingDiscount (passengers : ℕ) : ℚ :=
  if passengers = 1 then 0
  else if passengers = 2 then 1 / 5
  else if passengers = 3 then 3 / 10
  else 2 / 5

/-- JavaScript `x || y` on an optional number: `0` and `undefined` are falsy. -/
def jsOrNat (x : Option ℕ) (y : ℕ) : ℕ :=
  match x with
  | some n => if n = 0 then y else n
  | none => y

/-- `Math.round(x * 100) / 100`; `Math.round` rounds half toward `+∞`,
i.e. `⌊x + 1/2⌋`. -/
def round2 (q : ℚ) : ℚ :=
  ((⌊q * 100 + 1 / 2⌋ : ℤ) : ℚ) / 100

/-- `PricingEngine.calculateFare`: per-passenger fare from base + distance,
scaled by surge, time multiplier and pooling discount (keyed on
`totalPassengersInRide || passengers`), multiplied by the passengers of THIS
booking, floored at the minimum fare and rounded to two decimals. -/
def calculateFare (p : PricingParams) : ℚ :=
  let distanceFarePerPassenger := p.actualDistance * RATE_PER_KM
  let timeMultiplier := getTimeMultiplier p.timeOfDay
  let poolingDiscount := getPoolingDiscount (jsOrNat p.totalPassengersInRide p.passengers)
  let farePerPassenger :=
    (BASE_FARE + distanceFarePerPassenger) * p.surgeFactor * timeMultiplier * (1 - poolingDiscount)
  let totalFare := farePerPassenger * (p.passengers : ℚ)
  max MIN_FARE (round2 totalFare)

/-- `PricingEngine.calculateSurgeFactor`: max surge 3.0 when no cab is
available, otherwise `1 + min(demandRatio, 2)²` clamped into `[1, 3]`. -/
def calculateSurgeFactor (activeRequests availableCabs : ℚ) : ℚ :=
  if availableCabs = 0 then 3
  else
    let demandRatio := activeRequests / availableCabs
    let surge := 1 + (min demandRatio 2) ^ 2
    min 3 (max 1 surge)

/-! ## Route Optimizer (`src/algorithms/routing.ts`) -/

/-- Waypoint tag: `'pickup' | 'dropoff'`. -/
inductive WpType where
  | pickup
  | dropoff
deriving DecidableEq, Repr

/-- `Waypoint` from `routing.ts`. -/
structure Waypoint where
  type : WpType
  location : Location
  requestId : String
  passengers : ℕ
deriving DecidableEq, Repr

/-- `RouteResult` from `routing.ts`. -/
structure RouteResult where
  waypoints : List Waypoint
  totalDistance : ℚ
  estimatedDuration : ℚ
deriving DecidableEq, Repr

/-- The pickup waypoint object built (inline) for a request. -/
def pickupWp (r : RideRequest) : Waypoint :=
  { type := .pickup, location := r.pickup, requestId := r.id, passengers := r.passengers }

/-- The dropoff waypoint object built (inline) for a request. -/
def dropoffWp (r : RideRequest) : Waypoint :=
  { type := .dropoff, location := r.dropoff, requestId := r.id, passengers := r.passengers }

/-- The waypoint list built by `optimizeRouteDynamic`'s first loop:
pickup and dropoff of each request, in input order. -/
def routeWaypoints : List RideRequest → List Waypoint
  | [] => []
  | r :: rs => pickupWp r :: dropoffWp r :: routeWaypoints rs

/-- Membership in the JS `Set` of picked-up request ids. -/
def memId (id : String) : List String → Bool
  | [] => false
  | x :: xs => x == id || memId id xs

/-- The scan of `isValidRoute`, threading the set of picked-up ids:
a dropoff is legal only if its request was already picked up. -/
def isValidRouteAux (picked : List String) : List Waypoint → Bool
  | [] => true
  | wp :: rest =>
    match wp.type with
    | .pickup => isValidRouteAux (wp.requestId :: picked) rest
    | .dropoff => memId wp.requestId picked && isValidRouteAux picked rest

/-- `isValidRoute` from `generateValidRoutes`. -/
def isValidRoute (route : List Waypoint) : Bool :=
  isValidRouteAux [] route

/-- `generateValidRoutes`: all permutations of the waypoints, filtered by
validity.  (The source's index-swap recursion enumerates the same multiset of
permutations; only the order differs, which matters solely for tie-breaks.) -/
def generateValidRoutes (waypoints : List Waypoint) : List (List Waypoint) :=
  waypoints.permutations.filter isValidRoute

/-- One step of the selection loop of `optimizeRouteDynamic`: keep the first
route whose distance is strictly below the best so far. -/
def pickStep (dist : Location → Location → ℚ) (best : Option (List Waypoint × ℚ))
    (r : List Waypoint) : Option (List Waypoint × ℚ) :=
  let d := calculateRouteDistance dist (r.map (·.location))
  match best with
  | none => some (r, d)
  | some (br, bd) => if d < bd then some (r, d) else some (br, bd)

/-- The selection loop of `optimizeRouteDynamic` (`bestDistance` starts at
`Infinity`, modelled by the `none` accumulator). -/
def pickBestRoute (dist : Location → Location → ℚ) (routes : List (List Waypoint)) :
    Option (List Waypoint × ℚ) :=
  routes.foldl (pickStep dist) none

/-- `optimizeRouteDynamic`: exhaustive search over valid permutations.
When no valid route exists (empty input — unreachable from the matcher) the
source would dereference `null`; we return an empty route. -/
def optimizeRouteDynamic (dist : Location → Location → ℚ) (requests : List RideRequest) :
    RouteResult :=
  match pickBestRoute dist (generateValidRoutes (routeWaypoints requests)) with
  | some (r, d) => { waypoints := r, totalDistance := d, estimatedDuration := estimateTravelTime d }
  | none => { waypoints := [], totalDistance := 0, estimatedDuration := 0 }

/-- `createSimpleRoute`: the two-waypoint route of a single request. -/
def createSimpleRoute (dist : Location → Location → ℚ) (request : RideRequest) : RouteResult :=
  let d := dist request.pickup request.dropoff
  { waypoints := [pickupWp request, dropoffWp request],
    totalDistance := d,
    estimatedDuration := estimateTravelTime d }

/-- State of the greedy loop of `optimizeRouteGreedy`: remaining pickup
waypoints, onboard request ids, route so far, current location. -/
structure GreedyState where
  waypoints : List Waypoint
  pickedUp : List String
  route : List Waypoint
  current : Location
deriving Repr

/-- First loop of an iteration: nearest remaining pickup (strict `<`, so the
earliest index wins ties), with its distance. -/
def nearestPickup (dist : Location → Location → ℚ) (cur : Location) (wps : List Waypoint) :
    Option (ℕ × ℚ) :=
  wps.enum.foldl
    (fun acc iw =>
      let d := dist cur iw.2.location
      match acc with
      | none => some (iw.1, d)
      | some (j, bd) => if d < bd then some (iw.1, d) else some (j, bd))
    none

/-- Second loop: scanning all requests, a dropoff of an onboard passenger
strictly nearer than the best so far flips the decision to "dropoff". -/
def dropoffWins (dist : Location → Location → ℚ) (requests : List RideRequest)
    (st : GreedyState) (init : Bool × Option ℚ) : Bool × Option ℚ :=
  requests.foldl
    (fun acc r =>
      if memId r.id st.pickedUp then
        let d := dist st.current r.dropoff
        match acc.2 with
        | none => (false, some d)
        | some bd => if d < bd then (false, some d) else acc
      else acc)
    init

/-- One iteration of the greedy `while` loop.  Note the faithful modelling of
the source's dropoff branch: it drops the FIRST onboard passenger in request
order (`requests.find(r => pickedUp.has(r.id))`), not the nearest one. -/
def greedyStep (dist : Location → Location → ℚ) (requests : List RideRequest)
    (st : GreedyState) : GreedyState :=
  let pb := nearestPickup dist st.current st.waypoints
  let decision := dropoffWins dist requests st (pb.isSome, pb.map (·.2))
  match decision.1, pb with
  | true, some (i, _) =>
    match st.waypoints[i]? with
    | some wp =>
      { waypoints := st.waypoints.eraseIdx i,
        pickedUp := wp.requestId :: st.pickedUp,
        route := st.route ++ [wp],
        current := wp.location }
    | none => st
  | _, _ =>
    match requests.find? (fun r => memId r.id st.pickedUp) with
    | some req =>
      { waypoints := st.waypoints,
        pickedUp := st.pickedUp.erase req.id,
        route := st.route ++ [dropoffWp req],
        current := req.dropoff }
    | none => st

/-- The greedy `while (waypoints.length > 0 || pickedUp.size > 0)` loop,
fuelled (each iteration removes one pickup or one onboard id, so
`2 × |requests|` fuel always suffices). -/
def greedyLoop (dist : Location → Location → ℚ) (requests : List RideRequest) :
    ℕ → GreedyState → GreedyState
  | 0, st => st
  | n + 1, st =>
    if st.waypoints.isEmpty && st.pickedUp.isEmpty then st
    else greedyLoop dist requests n (greedyStep dist requests st)

/-- A dummy request (TypeScript would crash on the empty inputs we guard). -/
def dummyRequest : RideRequest :=
  { id := "", userId := "", pickup := ⟨0, 0, none⟩, dropoff := ⟨0, 0, none⟩,
    requestedAt := 0, passengers := 0, luggage := [], maxDetourMinutes := 0,
    status := .PENDING, version := 0 }

/-- `optimizeRouteGreedy`: nearest-neighbour heuristic for groups larger
than 4.  Only pickup waypoints are placed in the working array; the start
location is the first request's pickup. -/
def optimizeRouteGreedy (dist : Location → Location → ℚ) (requests : List RideRequest) :
    RouteResult :=
  let wps := requests.map pickupWp
  let current := (wps.headD (pickupWp dummyRequest)).location
  let final := greedyLoop dist requests (2 * requests.length)
    { waypoints := wps, pickedUp := [], route := [], current := current }
  let totalDistance := calculateRouteDistance dist (final.route.map (·.location))
  { waypoints := final.route, totalDistance := totalDistance,
    estimatedDuration := estimateTravelTime totalDistance }

/-- `optimizeRoute`: dispatch on the group size. -/
def optimizeRoute (dist : Location → Location → ℚ) (requests : List RideRequest) :
    RouteResult :=
  if requests.length = 1 then createSimpleRoute dist (requests.headD dummyRequest)
  else if requests.length ≤ 4 then optimizeRouteDynamic dist requests
  else optimizeRouteGreedy dist requests

/-! ## Matching Engine (`src/algorithms/matching.ts`) -/

/-- `PassengerInfo` from `src/types/index.ts`. -/
structure PassengerInfo where
  requestId : String
  userId : String
  pickup : Location
  dropoff : Location
  passengers : ℕ
  luggage : List LuggageSize
  pickupOrder : ℕ
  dropoffOrder : ℕ
  fare : ℚ
  detourMinutes : ℚ
deriving DecidableEq, Repr

/-- The (untyped, in the source) ride object returned by
`RideMatchingEngine.createRide`. -/
structure CandidateRide where
  passengers : List PassengerInfo
  route : List Location
  totalDistance : ℚ
  estimatedDuration : ℚ
deriving DecidableEq, Repr

/-- `MatchResult` over candidate rides. -/
structure MatchResult where
  score : ℚ
  ride : CandidateRide
  savings : ℚ
  detourTime : ℚ
deriving DecidableEq, Repr

/-- `MAX_PASSENGERS_PER_CAB` default. -/
def MAX_PASSENGERS : ℕ := 4
/-- `MAX_LUGGAGE_CAPACITY` default. -/
def MAX_LUGGAGE : ℕ := 6
/-- `MAX_DETOUR_PERCENTAGE` default. -/
def MAX_DETOUR_PCT : ℚ := 20
/-- `SEARCH_RADIUS_KM = 5`. -/
def SEARCH_RADIUS_KM : ℚ := 5

/-- `filterNearbyRequests`: drop the request itself, keep candidates whose
pickup is within the search radius of the target's pickup. -/
def filterNearbyRequests (dist : Location → Location → ℚ) (request : RideRequest)
    (requests : List RideRequest) : List RideRequest :=
  requests.filter (fun r =>
    !(r.id == request.id) && decide (dist request.pickup r.pickup ≤ SEARCH_RADIUS_KM))

/-- Total passenger count of a group (`reduce((sum, r) => sum + r.passengers, 0)`). -/
def totalPassengers (group : List RideRequest) : ℕ :=
  group.foldl (fun sum r => sum + r.passengers) 0

/-- Total luggage units of a group. -/
def totalLuggage (group : List RideRequest) : ℕ :=
  group.foldl (fun sum r => sum + r.luggage.foldl (fun lsum l => lsum + l.units) 0) 0

/-- `checkConstraints`: seats and luggage capacity. -/
def checkConstraints (group : List RideRequest) : Bool :=
  decide (totalPassengers group ≤ MAX_PASSENGERS) && decide (totalLuggage group ≤ MAX_LUGGAGE)

/-- `canAddToGroup`: seat capacity after adding the target request. -/
def canAddToGroup (request : RideRequest) (group : List RideRequest) : Bool :=
  decide (totalPassengers group + request.passengers ≤ MAX_PASSENGERS)

/-- Ordered pairs `(i, j)` with `i < j`, in the two-nested-loop order. -/
def pairsOf : List RideRequest → List (RideRequest × RideRequest)
  | [] => []
  | x :: xs => xs.map (fun y => (x, y)) ++ pairsOf xs

/-- Ordered triples in the three-nested-loop order. -/
def triplesOf : List RideRequest → List (RideRequest × RideRequest × RideRequest)
  | [] => []
  | x :: xs => (pairsOf xs).map (fun yz => (x, yz.1, yz.2)) ++ triplesOf xs

/-- `createRequestGroups`: all singletons, then constraint-passing pairs,
then constraint-passing triples, in enumeration order. -/
def createRequestGroups (requests : List RideRequest) : List (List RideRequest) :=
  requests.map (fun r => [r])
    ++ ((pairsOf requests).filter (fun p => checkConstraints [p.1, p.2])).map
        (fun p => [p.1, p.2])
    ++ ((triplesOf requests).filter (fun t => checkConstraints [t.1, t.2.1, t.2.2])).map
        (fun t => [t.1, t.2.1, t.2.2])

/-- Distance along `route` from waypoint `i` to waypoint `j`
(the `for (let k = pickupIdx; k < dropoffIdx; k++)` sum; empty when `j ≤ i`). -/
def segmentDistance (dist : Location → Location → ℚ) (wps : List Waypoint) (i j : ℕ) : ℚ :=
  calculateRouteDistance dist (((wps.map (·.location)).drop i).take (j - i + 1))

/-- `calculateDetours`: per member, shared-route travel time between its own
pickup and dropoff minus its direct travel time. -/
def calculateDetours (dist : Location → Location → ℚ) (group : List RideRequest)
    (route : RouteResult) : List ℚ :=
  group.map (fun request =>
    let directDistance := dist request.pickup request.dropoff
    let directTime := estimateTravelTime directDistance
    let pickupIdx := route.waypoints.findIdx
      (fun w => w.type == WpType.pickup && w.requestId == request.id)
    let dropoffIdx := route.waypoints.findIdx
      (fun w => w.type == WpType.dropoff && w.requestId == request.id)
    let actualDistance := segmentDistance dist route.waypoints pickupIdx dropoffIdx
    estimateTravelTime actualDistance - directTime)

/-- `validateDetours`: each member's detour must not exceed
`max(directTime × 20 %, member.maxDetourMinutes)`. -/
def validateDetours (dist : Location → Location → ℚ) (group : List RideRequest)
    (detours : List ℚ) : Bool :=
  (group.zip detours).all (fun rd =>
    let directTime := estimateTravelTime (dist rd.1.pickup rd.1.dropoff)
    let maxDetour := directTime * MAX_DETOUR_PCT / 100
    decide (rd.2 ≤ max maxDetour rd.1.maxDetourMinutes))

/-- `calculateMatchScore`: 40 % group size, 40 % route efficiency, up to 20
for low average detour, capped at 100.  (In ℚ, `x / 0 = 0`; the JS division
could only differ on a zero-length shared route, never produced here.) -/
def calculateMatchScore (dist : Location → Location → ℚ) (group : List RideRequest)
    (route : RouteResult) (detours : List ℚ) : ℚ :=
  let avgDetour := detours.foldl (· + ·) 0 / (detours.length : ℚ)
  let directDistances := group.foldl (fun sum r => sum + dist r.pickup r.dropoff) 0
  let efficiency := directDistances / route.totalDistance
  let sizeScore := ((group.length : ℚ) / (MAX_PASSENGERS : ℚ)) * 40
  let efficiencyScore := efficiency * 40
  let detourScore := max 0 (20 - avgDetour)
  min 100 (sizeScore + efficiencyScore + detourScore)

/-- `calculateSavings`: sum of solo costs at $2.5/km minus shared cost. -/
def calculateSavings (dist : Location → Location → ℚ) (group : List RideRequest)
    (route : RouteResult) : ℚ :=
  let individualCosts := group.foldl (fun sum r => sum + dist r.pickup r.dropoff * (5 / 2)) 0
  let sharedCost := route.totalDistance * (5 / 2)
  individualCosts - sharedCost

/-- `createRide`: passenger legs (fare and detour minutes initialised to 0)
plus the bare location route.  `pickupOrder` / `dropoffOrder` are the
`findIndex` positions of the member's waypoints in the shared route. -/
def createRide (group : List RideRequest) (route : RouteResult) : CandidateRide :=
  { passengers := group.map (fun r =>
      { requestId := r.id, userId := r.userId, pickup := r.pickup, dropoff := r.dropoff,
        passengers := r.passengers, luggage := r.luggage,
        pickupOrder := route.waypoints.findIdx
          (fun w => w.type == WpType.pickup && w.requestId == r.id),
        dropoffOrder := route.waypoints.findIdx
          (fun w => w.type == WpType.dropoff && w.requestId == r.id),
        fare := 0,
        detourMinutes := 0 }),
    route := route.waypoints.map (·.location),
    totalDistance := route.totalDistance,
    estimatedDuration := route.estimatedDuration }

/-- `Math.max(...detours)` on a nonempty list. -/
def maxOfList : List ℚ → ℚ
  | [] => 0
  | x :: xs => xs.foldl max x

/-- The solo MatchResult pushed first by `findMatches`: fixed score 50,
zero savings, zero detour. -/
def soloMatch (dist : Location → Location → ℚ) (request : RideRequest) : MatchResult :=
  { score := 50, ride := createRide [request] (optimizeRoute dist [request]),
    savings := 0, detourTime := 0 }

/-- The body of the group loop of `findMatches`: `none` when the group is
skipped by `canAddToGroup`, `checkConstraints` or `validateDetours`. -/
def mkPooledMatch (dist : Location → Location → ℚ) (request : RideRequest)
    (group : List RideRequest) : Option MatchResult :=
  if !canAddToGroup request group then none
  else
    let combinedGroup := group ++ [request]
    if !checkConstraints combinedGroup then none
    else
      let route := optimizeRoute dist combinedGroup
      let detours := calculateDetours dist combinedGroup route
      if !validateDetours dist combinedGroup detours then none
      else some
        { score := calculateMatchScore dist combinedGroup route detours,
          ride := createRide combinedGroup route,
          savings := calculateSavings dist combinedGroup route,
          detourTime := maxOfList detours }

/-- All pooled matches, in group-enumeration order. -/
def pooledMatches (dist : Location → Location → ℚ) (request : RideRequest)
    (activeRequests : List RideRequest) : List MatchResult :=
  (createRequestGroups (filterNearbyRequests dist request activeRequests)).filterMap
    (mkPooledMatch dist request)

/-- Stable insertion of a match into a descending-by-score list: the inserted
element (earlier in the original list) goes before later equal-score ones. -/
def insertByScore (m : MatchResult) : List MatchResult → List MatchResult
  | [] => [m]
  | h :: t => if h.score ≤ m.score then m :: h :: t else h :: insertByScore m t

/-- Stable descending sort by score, modelling the (stable, ES2019)
`matches.sort((a, b) => b.score - a.score)`. -/
def sortByScoreDesc : List MatchResult → List MatchResult
  | [] => []
  | m :: rest => insertByScore m (sortByScoreDesc rest)

/-- `RideMatchingEngine.findMatches`: solo option first, then pooled options
in enumeration order, sorted by descending score, top 5 returned. -/
def findMatches (dist : Location → Location → ℚ) (request : RideRequest)
    (activeRequests : List RideRequest) : List MatchResult :=
  (sortByScoreDesc
    (soloMatch dist request :: pooledMatches dist request activeRequests)).take 5

/-! ## Service-level fare computation (`RideService.findMatches`, part of the
Coordinator).  `calculatePassengerDistance` reads only the leg's
`pickupOrder` / `dropoffOrder` and the ride's location route (its flat-earth
`sqrt` is abstracted by the parameter `pdist`). -/

/-- `match.ride.passengers.reduce((sum, p) => sum + p.passengers, 0)`. -/
def totalPassengersInRide (ride : CandidateRide) : ℕ :=
  ride.passengers.foldl (fun sum p => sum + p.passengers) 0

/-- The per-match fare loop of `RideService.findMatches`: each leg's fare is
the Pricing Engine fare at that leg's own distance and booking size, with the
ride's total passenger count supplied for the discount tier. -/
def applyFares (pdist : ℕ → ℕ → List Location → ℚ) (surgeFactor : ℚ) (currentHour : ℤ)
    (m : MatchResult) : MatchResult :=
  let total := totalPassengersInRide m.ride
  let newLegs := m.ride.passengers.map (fun p =>
    let passengerDistance := pdist p.pickupOrder p.dropoffOrder m.ride.route
    let newFare := calculateFare
      ⟨passengerDistance, passengerDistance, p.passengers, surgeFactor,
        currentHour, some total⟩
    { p with fare := newFare })
  { m with ride := { m.ride with passengers := newLegs } }

/-- `RideService.findMatches` after lease acquisition: engine matches with
authoritative per-leg fares filled in. -/
def serviceFindMatches (dist : Location → Location → ℚ)
    (pdist : ℕ → ℕ → List Location → ℚ) (surgeFactor : ℚ) (currentHour : ℤ)
    (request : RideRequest) (activeRequests : List RideRequest) : List MatchResult :=
  (findMatches dist request activeRequests).map (applyFares pdist surgeFactor currentHour)

/-! ## Coordinator transactions (`RideService` in the service source and
`RideCompletionService.ts`), over a relational-store state.

Each operation is a function `DBState → DBState × Except ε α`: the returned
state is the post-`COMMIT` state on success and the original state on any
error (the source wraps every operation in `BEGIN … COMMIT` with `ROLLBACK`
in the catch block; in this sequential embedding the failing checks all
precede the first write, and the `INSERT`s cannot fail). -/

/-- A row of the `cabs` table.  The table has NO `version` column; driver
identity fields are never read by the coordinator and are omitted. -/
structure Cab where
  id : String
  isAvailable : Bool
  currentLat : Option ℚ
  currentLng : Option ℚ
deriving DecidableEq, Repr

/-- The `rides.route` JSONB payload.  `confirmBooking` stores the bare
location array produced by `createRide`; the completion service probes
`route.waypoints`, which only exists on the wrapped shape. -/
inductive RouteJson where
  | locs (route : List Location)
  | wrapped (waypoints : List Waypoint)
deriving DecidableEq, Repr

/-- A row of the `rides` table. -/
structure RideRow where
  id : String
  cabId : String
  route : RouteJson
  totalDistance : ℚ
  estimatedDuration : ℚ
  basePrice : ℚ
  surgeFactor : ℚ
  status : RideStatus
  version : ℕ
deriving DecidableEq, Repr

/-- A row of the `ride_passengers` table. -/
structure RidePassengerRow where
  rideId : String
  requestId : String
  pickupOrder : ℕ
  dropoffOrder : ℕ
  fare : ℚ
  detourMinutes : ℚ
deriving DecidableEq, Repr

/-- The relational store: `ride_requests`, `cabs`, `rides`,
`ride_passengers` (rows in table order; `LIMIT 1` picks the first match). -/
structure DBState where
  requests : List RideRequest
  cabs : List Cab
  rides : List RideRow
  ridePassengers : List RidePassengerRow
deriving DecidableEq, Repr

/-- JavaScript `x || y` on an optional number (`0` and `undefined` falsy). -/
def jsOr (x : Option ℚ) (y : ℚ) : ℚ :=
  match x with
  | some v => if v = 0 then y else v
  | none => y

/-- The `rideData` payload handed to `confirmBooking` (a candidate ride
chosen by the client; `basePrice` / `surgeFactor` may be absent). -/
structure BookingData where
  passengers : List PassengerInfo
  route : List Location
  totalDistance : ℚ
  estimatedDuration : ℚ
  basePrice : Option ℚ
  surgeFactor : Option ℚ
deriving DecidableEq, Repr

/-- Failure modes of `confirmBooking`. -/
inductive BookingError where
  | requestNotFound
  | requestAlreadyProcessed
  | noAvailableCabs
deriving DecidableEq, Repr

/-- The per-passenger body of the booking loop: insert the leg row and set
the involved request CONFIRMED with `version = version + 1` (the `UPDATE` is
guarded by `WHERE id = …` only). -/
def applyPassengerBooking (newRideId : String) (st : DBState) (p : PassengerInfo) : DBState :=
  { st with
    ridePassengers := st.ridePassengers ++
      [{ rideId := newRideId, requestId := p.requestId,
         pickupOrder := p.pickupOrder, dropoffOrder := p.dropoffOrder,
         fare := p.fare, detourMinutes := p.detourMinutes }],
    requests := st.requests.map (fun r =>
      if r.id == p.requestId then
        { r with status := RideStatus.CONFIRMED, version := r.version + 1 }
      else r) }

/-- `RideService.confirmBooking`: check the target request is PENDING, pick
the first available cab (`LIMIT 1 FOR UPDATE`), mark it unavailable, insert
the ride row (status CONFIRMED, version 1), then run the passenger loop. -/
def confirmBooking (s : DBState) (requestId newRideId : String) (rideData : BookingData) :
    DBState × Except BookingError String :=
  match s.requests.find? (fun r => r.id == requestId) with
  | none => (s, .error .requestNotFound)
  | some req =>
    if req.status == RideStatus.PENDING then
      match s.cabs.find? (fun c => c.isAvailable) with
      | none => (s, .error .noAvailableCabs)
      | some cab =>
        let afterCab : DBState :=
          { s with cabs := s.cabs.map (fun c =>
              if c.id == cab.id then { c with isAvailable := false } else c) }
        let newRide : RideRow :=
          { id := newRideId, cabId := cab.id, route := .locs rideData.route,
            totalDistance := rideData.totalDistance,
            estimatedDuration := rideData.estimatedDuration,
            basePrice := jsOr rideData.basePrice 0,
            surgeFactor := jsOr rideData.surgeFactor 1,
            status := RideStatus.CONFIRMED, version := 1 }
        let afterRide : DBState := { afterCab with rides := afterCab.rides ++ [newRide] }
        let final := rideData.passengers.foldl (applyPassengerBooking newRideId) afterRide
        (final, .ok newRideId)
    else (s, .error .requestAlreadyProcessed)

/-- Request ids of the legs of a ride
(`SELECT request_id FROM ride_passengers WHERE ride_id = …`). -/
def involvedRequestIds (s : DBState) (rideId : String) : List String :=
  (s.ridePassengers.filter (fun rp => rp.rideId == rideId)).map (fun rp => rp.requestId)

/-- Failure modes of `cancelRide`. -/
inductive CancelError where
  | rideNotFound
  | alreadyCancelled
  | completedRide
deriving DecidableEq, Repr

/-- `RideService.cancelRide`: reject CANCELLED / COMPLETED rides, set the
ride CANCELLED (version + 1), free its cab, and reset every involved request
to PENDING (without touching their versions). -/
def cancelRide (s : DBState) (rideId : String) : DBState × Except CancelError Unit :=
  match s.rides.find? (fun r => r.id == rideId) with
  | none => (s, .error .rideNotFound)
  | some ride =>
    if ride.status == RideStatus.CANCELLED then (s, .error .alreadyCancelled)
    else if ride.status == RideStatus.COMPLETED then (s, .error .completedRide)
    else
      let involved := involvedRequestIds s rideId
      let s1 : DBState :=
        { s with rides := s.rides.map (fun r =>
            if r.id == rideId then
              { r with status := RideStatus.CANCELLED, version := r.version + 1 }
            else r) }
      let s2 : DBState :=
        { s1 with cabs := s1.cabs.map (fun c =>
            if c.id == ride.cabId then { c with isAvailable := true } else c) }
      let s3 : DBState :=
        { s2 with requests := s2.requests.map (fun r =>
            if memId r.id involved then { r with status := RideStatus.PENDING } else r) }
      (s3, .ok ())

/-- `RideService.markNoDriverAvailable`:
`UPDATE ride_requests SET status = CANCELLED WHERE id = … AND status = PENDING`
— no version read, no version condition, no version increment. -/
def markNoDriverAvailable (s : DBState) (requestId : String) : DBState :=
  { s with requests := s.requests.map (fun r =>
      if r.id == requestId && r.status == RideStatus.PENDING then
        { r with status := RideStatus.CANCELLED }
      else r) }

/-- The final-dropoff probe of the completion service: reads
`route.waypoints` (undefined on the bare array stored by `confirmBooking`)
and requires the last waypoint to be a dropoff. -/
def finalDropoff (route : RouteJson) : Option (ℚ × ℚ) :=
  match route with
  | .locs _ => none
  | .wrapped ws =>
    match ws.getLast? with
    | some w =>
      if w.type == WpType.dropoff then some (w.location.latitude, w.location.longitude)
      else none
    | none => none

/-- Failure modes of `completeRide`. -/
inductive CompleteError where
  | rideNotFound
  | alreadyCompleted
  | cancelledRide
deriving DecidableEq, Repr

/-- `RideCompletionService.completeRide`: reject COMPLETED / CANCELLED
rides; otherwise set the ride COMPLETED (version + 1), free the cab (moving
it to the final dropoff only when both coordinates are truthy, i.e.
non-zero), and mark all involved requests COMPLETED. -/
def completeRide (s : DBState) (rideId : String) : DBState × Except CompleteError Unit :=
  match s.rides.find? (fun r => r.id == rideId) with
  | none => (s, .error .rideNotFound)
  | some ride =>
    if ride.status == RideStatus.COMPLETED then (s, .error .alreadyCompleted)
    else if ride.status == RideStatus.CANCELLED then (s, .error .cancelledRide)
    else
      let involved := involvedRequestIds s rideId
      let s1 : DBState :=
        { s with rides := s.rides.map (fun r =>
            if r.id == rideId then
              { r with status := RideStatus.COMPLETED, version := r.version + 1 }
            else r) }
      let s2 : DBState :=
        match finalDropoff ride.route with
        | some (lat, lng) =>
          if !(lat == 0) && !(lng == 0) then
            { s1 with cabs := s1.cabs.map (fun c =>
                if c.id == ride.cabId then
                  { c with isAvailable := true, currentLat := some lat, currentLng := some lng }
                else c) }
          else
            { s1 with cabs := s1.cabs.map (fun c =>
                if c.id == ride.cabId then { c with isAvailable := true } else c) }
        | none =>
          { s1 with cabs := s1.cabs.map (fun c =>
              if c.id == ride.cabId then { c with isAvailable := true } else c) }
      let s3 : DBState :=
        { s2 with requests := s2.requests.map (fun r =>
            if memId r.id involved then { r with status := RideStatus.COMPLETED } else r) }
      (s3, .ok ())

/-- Failure modes of `startRide`. -/
inductive StartError where
  | rideNotFound
  | notConfirmed
deriving DecidableEq, Repr

/-- `RideCompletionService.startRide`: CONFIRMED → IN_PROGRESS only. -/
def startRide (s : DBState) (rideId : String) : DBState × Except StartError Unit :=
  match s.rides.find? (fun r => r.id == rideId) with
  | none => (s, .error .rideNotFound)
  | some ride =>
    if ride.status == RideStatus.CONFIRMED then
      let involved := involvedRequestIds s rideId
      let s1 : DBState :=
        { s with rides := s.rides.map (fun r =>
            if r.id == rideId then
              { r with status := RideStatus.IN_PROGRESS, version := r.version + 1 }
            else r) }
      let s2 : DBState :=
        { s1 with requests := s1.requests.map (fun r =>
            if memId r.id involved then { r with status := RideStatus.IN_PROGRESS } else r) }
      (s2, .ok ())
    else (s, .error .notConfirmed)

/-! ## Comparison definitions and concrete instances -/

/-- Modelled from the spec: the naive route of a group — "all pickups then
all dropoffs in input order" — used as the optimality lower bound that the
Route Optimizer's result is compared against. -/
def naiveRoute (reqs : List RideRequest) : List Waypoint :=
  reqs.map pickupWp ++ reqs.map dropoffWp

/-- Total distance of the naive route of a group. -/
def naiveRouteDistance (dist : Location → Location → ℚ) (reqs : List RideRequest) : ℚ :=
  calculateRouteDistance dist ((naiveRoute reqs).map (·.location))

/-- Apply an arbitrary transformation to every stored request version
(leaving all other columns alone) — used to show that an operation neither
reads nor writes versions. -/
def mapRequestVersions (f : ℕ → ℕ) (s : DBState) : DBState :=
  { s with requests := s.requests.map (fun r => { r with version := f r.version }) }

/-- Degenerate distance function (all points coincide) for witnesses. -/
def zeroDist : Location → Location → ℚ := fun _ _ => 0

/-- An exact taxicab metric on the coordinate plane, standing in for the
haversine distance in concrete evaluations (any metric instantiates the
abstract `dist` parameter). -/
def gridDist (a b : Location) : ℚ :=
  |a.latitude - b.latitude| + |a.longitude - b.longitude|

/-- Concrete request builder for the evaluations below. -/
def mkTestRequest (id : String) (px py dx dy : ℚ) (pass : ℕ) : RideRequest :=
  { id := id, userId := id, pickup := ⟨px, py, none⟩, dropoff := ⟨dx, dy, none⟩,
    requestedAt := 0, passengers := pass, luggage := [], maxDetourMinutes := 15,
    status := .PENDING, version := 1 }

/-- C1 counterexample: target request, 2 passengers, pickup (0,0),
dropoff (2,0). -/
def c1Target : RideRequest := mkTestRequest "t" 0 0 2 0 2

/-- C1 counterexample: five identical 2-passenger candidates sharing the
target's pickup and dropoff; each single-candidate pool scores 100. -/
def c1Cands : List RideRequest :=
  [mkTestRequest "p1" 0 0 2 0 2, mkTestRequest "p2" 0 0 2 0 2,
   mkTestRequest "p3" 0 0 2 0 2, mkTestRequest "p4" 0 0 2 0 2,
   mkTestRequest "p5" 0 0 2 0 2]

/-- C1 witness target (no candidates nearby). -/
def c1WitnessReq : RideRequest := mkTestRequest "w" 0 0 1 0 1

/-- C10 counterexample: request A, direct trip (0,0) → (5/2,0). -/
def c10ReqA : RideRequest := mkTestRequest "a" 0 0 (5/2) 0 1

/-- C10 counterexample: request B, a short hop off A's path, forcing a
detour of 2 minutes onto A in the pooled route. -/
def c10ReqB : RideRequest := mkTestRequest "b" (5/4) (3/4) (3/2) (3/4) 1

/-- C4 counterexample: five requests (the greedy fallback applies).  The
first pickup chain lures the greedy heuristic into dropping A at its distant
dropoff mid-run, making its route longer than the naive one. -/
def c4Reqs : List RideRequest :=
  [mkTestRequest "ga" 0 0 50 0 1, mkTestRequest "gb" 1 0 1 (-1) 1,
   mkTestRequest "gc" 3 0 3 (-1) 1, mkTestRequest "gd" 5 0 5 (-1) 1,
   mkTestRequest "ge" 7 0 7 (-1) 1]

/-- C4 witness: a single-request group. -/
def c4WitnessReq : RideRequest := mkTestRequest "s" 0 0 3 4 1

/-- C6 witness group: 3 + 1 passengers, 2 + 3 luggage units. -/
def c6Group : List RideRequest :=
  [{ mkTestRequest "g1" 0 0 1 1 3 with luggage := [.MEDIUM] },
   { mkTestRequest "g2" 0 0 1 1 1 with luggage := [.LARGE] }]

/-- C7 witness pricing parameters. -/
def c7Params : PricingParams :=
  { baseDistance := 10, actualDistance := 10, passengers := 2, surgeFactor := 1,
    timeOfDay := 12, totalPassengersInRide := some 4 }

/-- C2 counterexample store: one PENDING request at version 5. -/
def c2DB : DBState :=
  { requests := [{ mkTestRequest "r1" 0 0 1 1 2 with version := 5 }],
    cabs := [], rides := [], ridePassengers := [] }

/-- C3 witness store: a PENDING request and an empty available-cab pool
(the only cab is already reserved). -/
def c3DB : DBState :=
  { requests := [mkTestRequest "r1" 0 0 1 1 2],
    cabs := [{ id := "cab1", isAvailable := false, currentLat := none, currentLng := none }],
    rides := [], ridePassengers := [] }

/-- C3 witness passenger leg payload. -/
def c3Leg : PassengerInfo :=
  { requestId := "r1", userId := "r1", pickup := ⟨0, 0, none⟩, dropoff := ⟨1, 1, none⟩,
    passengers := 2, luggage := [], pickupOrder := 0, dropoffOrder := 1, fare := 10,
    detourMinutes := 0 }

/-- C3 witness booking payload. -/
def c3Data : BookingData :=
  { passengers := [c3Leg], route := [⟨0, 0, none⟩, ⟨1, 1, none⟩], totalDistance := 2,
    estimatedDuration := 3, basePrice := none, surgeFactor := none }

/-- C9 witness: a ride row in a given status. -/
def c9Ride (st : RideStatus) (v : ℕ) : RideRow :=
  { id := "ride1", cabId := "cab1", route := .locs [⟨0, 0, none⟩, ⟨1, 1, none⟩],
    totalDistance := 2, estimatedDuration := 3, basePrice := 0, surgeFactor := 1,
    status := st, version := v }

/-- C9 witness: the single passenger leg of the ride. -/
def c9Leg : RidePassengerRow :=
  { rideId := "ride1", requestId := "r1", pickupOrder := 0, dropoffOrder := 1,
    fare := 10, detourMinutes := 0 }

/-- C9 witness store: a CONFIRMED ride on a reserved cab with one leg. -/
def c9DB : DBState :=
  { requests := [{ mkTestRequest "r1" 0 0 1 1 2 with status := .CONFIRMED, version := 2 }],
    cabs := [{ id := "cab1", isAvailable := false, currentLat := some 9, currentLng := some 9 }],
    rides := [c9Ride .CONFIRMED 1],
    ridePassengers := [c9Leg] }

/-- C9 witness: the store after the first (successful) completion. -/
def c9DBCompleted : DBState :=
  { requests := [{ mkTestRequest "r1" 0 0 1 1 2 with status := .COMPLETED, version := 2 }],
    cabs := [{ id := "cab1", isAvailable := true, currentLat := some 9, currentLng := some 9 }],
    rides := [c9Ride .COMPLETED 2],
    ridePassengers := [c9Leg] }

/-- C5 witness: a lone request priced at hour 12 with surge 1. -/
def c5Req : RideRequest := mkTestRequest "q" 0 0 1 0 1

/-- C10 witness: a lone request whose solo match's leg is inspected. -/
def c10WitnessReq : RideRequest := mkTestRequest "w10" 0 0 1 0 1

/-- C10 witness: the solo leg that `createRide` builds for it. -/
def c10WitnessLeg : PassengerInfo :=
  { requestId := "w10", userId := "w10", pickup := ⟨0, 0, none⟩, dropoff := ⟨1, 0, none⟩,
    passengers := 1, luggage := [], pickupOrder := 0, dropoffOrder := 1,
    fare := 0, detourMinutes := 0 }

/-- Degenerate passenger-distance function for witnesses. -/
def zeroPdist : ℕ → ℕ → List Location → ℚ := fun _ _ _ => 0

/-- C5 witness: the fare-priced solo match of `c5Req`. -/
def c5Match : MatchResult := applyFares zeroPdist 1 12 (soloMatch zeroDist c5Req)

/-- Apply an arbitrary transformation to every stored ride version
(leaving all other columns alone) — used to show that an operation neither
reads nor conditions on ride versions. -/
def mapRideVersions (f : ℕ → ℕ) (s : DBState) : DBState :=
  { s with rides := s.rides.map (fun r => { r with version := f r.version }) }

/-- After a successful booking, a request row is either untouched or set to
CONFIRMED with a strictly increased version. -/
def confirmedOrUntouched (r r' : RideRequest) : Prop :=
  r' = r ∨ (r'.id = r.id ∧ r'.status = RideStatus.CONFIRMED ∧ r.version < r'.version)

/-- C2 witness: a CONFIRMED ride at version 3 on a reserved cab. -/
def c2Ride : RideRow :=
  { id := "ride2", cabId := "cab2", route := .locs [], totalDistance := 1,
    estimatedDuration := 2, basePrice := 0, surgeFactor := 1,
    status := .CONFIRMED, version := 3 }

/-- C2 witness store for cancellation. -/
def c2RideDB : DBState :=
  { requests := [{ mkTestRequest "r2" 0 0 1 1 1 with status := .CONFIRMED, version := 7 }],
    cabs := [⟨"cab2", false, none, none⟩],
    rides := [c2Ride],
    ridePassengers := [⟨"ride2", "r2", 0, 1, 9, 0⟩] }

/-- C2 witness: the store after the cancellation — the ride row's version is
incremented to 4 while the reset-to-PENDING request keeps version 7. -/
def c2RideDBCancelled : DBState :=
  { requests := [{ mkTestRequest "r2" 0 0 1 1 1 with status := .PENDING, version := 7 }],
    cabs := [⟨"cab2", true, none, none⟩],
    rides := [{ c2Ride with status := .CANCELLED, version := 4 }],
    ridePassengers := [⟨"ride2", "r2", 0, 1, 9, 0⟩] }

/-- C2 witness: booking payload leg. -/
def c2BookLeg : PassengerInfo :=
  { requestId := "r3", userId := "r3", pickup := ⟨0, 0, none⟩, dropoff := ⟨1, 1, none⟩,
    passengers := 1, luggage := [], pickupOrder := 0, dropoffOrder := 1, fare := 12,
    detourMinutes := 0 }

/-- C2 witness: booking payload. -/
def c2BookData : BookingData :=
  { passengers := [c2BookLeg], route := [⟨0, 0, none⟩, ⟨1, 1, none⟩], totalDistance := 2,
    estimatedDuration := 3, basePrice := none, surgeFactor := none }

/-- C2 witness store for booking: a PENDING request and one available cab. -/
def c2BookDB : DBState :=
  { requests := [mkTestRequest "r3" 0 0 1 1 1],
    cabs := [⟨"cab3", true, none, none⟩],
    rides := [], ridePassengers := [] }

/-- C2 witness: the ride row the booking inserts (version 1). -/
def c2NewRide : RideRow :=
  { id := "ride3", cabId := "cab3", route := .locs [⟨0, 0, none⟩, ⟨1, 1, none⟩],
    totalDistance := 2, estimatedDuration := 3, basePrice := 0, surgeFactor := 1,
    status := .CONFIRMED, version := 1 }

/-- C2 witness: the store after the booking — the request is CONFIRMED with
its version incremented from 1 to 2. -/
def c2BookDBBooked : DBState :=
  { requests := [{ mkTestRequest "r3" 0 0 1 1 1 with status := .CONFIRMED, version := 2 }],
    cabs := [⟨"cab3", false, none, none⟩],
    rides := [c2NewRide],
    ridePassengers := [⟨"ride3", "r3", 0, 1, 12, 0⟩] }

deriving instance DecidableEq for Except

/-! ## Helper lemmas -/

/-- `find?` through a guarded row update: when the transformation preserves
the selection predicate, looking a row up after the update is looking it up
before and transforming it. -/
theorem find?_map_ite {α : Type} (p : α → Bool) (f : α → α) (hf : ∀ a, p (f a) = p a) :
    ∀ l : List α, (l.map (fun a => if p a then f a else a)).find? p = (l.find? p).map f := by
  intro l
  induction l with
  | nil => rfl
  | cons a t ih =>
    by_cases hp : p a = true
    · simp only [List.map_cons, if_pos hp]
      rw [List.find?_cons_of_pos _ ((hf a).trans hp), List.find?_cons_of_pos _ hp]
      rfl
    · have hp' : p a = false := by revert hp; cases p a <;> simp
      simp only [List.map_cons, if_neg hp]
      rw [List.find?_cons_of_neg, List.find?_cons_of_neg, ih]
      · simp [hp']
      · simp [hp']

/-! ## C6 — capacity constraint check -/

/-- C6: every group admitted by the Matching Engine's `checkConstraints`
(with the default configuration) has at most 4 total passengers and at most
6 total luggage units. -/
theorem checkConstraints_bounds (group : List RideRequest)
    (h : checkConstraints group = true) :
    totalPassengers group ≤ 4 ∧ totalLuggage group ≤ 6 := by
  unfold checkConstraints at h
  simp only [Bool.and_eq_true, decide_eq_true_eq] at h
  exact h

/-- C6 witness: a 3 + 1 passenger, 2 + 3 luggage-unit group passes the check
and satisfies the bounds. -/
theorem checkConstraints_bounds_witness :
    checkConstraints c6Group = true ∧ totalPassengers c6Group ≤ 4 ∧ totalLuggage c6Group ≤ 6 :=
  ⟨by decide, checkConstraints_bounds c6Group (by decide)⟩

/-! ## C8 — surge factor -/

/-- C8: `calculateSurgeFactor` returns 3 when no cab is available, otherwise
`1 + min(active/available, 2)²` clamped into `[1, 3]`; the result is always
within `[1, 3]`, and the scenario `(200, 100)` yields 3. -/
theorem calculateSurgeFactor_formula (a v : ℚ) :
    (v = 0 → calculateSurgeFactor a v = 3) ∧
    (v ≠ 0 → calculateSurgeFactor a v = min 3 (max 1 (1 + min (a / v) 2 ^ 2))) ∧
    (1 ≤ calculateSurgeFactor a v ∧ calculateSurgeFactor a v ≤ 3) ∧
    calculateSurgeFactor 200 100 = 3 := by
  refine ⟨fun h => by simp [calculateSurgeFactor, h], fun h => by simp [calculateSurgeFactor, h],
    ?_, ?_⟩
  · unfold calculateSurgeFactor
    split
    · norm_num
    · exact ⟨le_min (by norm_num) (le_max_left _ _), min_le_left _ _⟩
  · have h100 : (100 : ℚ) ≠ 0 := by norm_num
    unfold calculateSurgeFactor
    rw [if_neg h100]
    norm_num

/-- C8 witness: zero available cabs give maximum surge. -/
theorem calculateSurgeFactor_formula_witness : calculateSurgeFactor 0 0 = 3 :=
  (calculateSurgeFactor_formula 0 0).1 rfl

/-! ## C2 — version discipline of the coordinator updates -/

/-- `markNoDriverAvailable` is guarded by id and PENDING-status conditions
only — it commutes with arbitrary rewrites of the stored request versions
(so no `WHERE version = …` condition exists) and never changes any version
(so no increment happens either). -/
theorem markNoDriverAvailable_ignores_versions (s : DBState) (requestId : String)
    (f : ℕ → ℕ) :
    markNoDriverAvailable (mapRequestVersions f s) requestId
      = mapRequestVersions f (markNoDriverAvailable s requestId) ∧
    (markNoDriverAvailable s requestId).requests.map (fun r => r.version)
      = s.requests.map (fun r => r.version) := by
  constructor
  · unfold markNoDriverAvailable mapRequestVersions
    simp only [List.map_map]
    refine congrArg (fun l => DBState.mk l s.cabs s.rides s.ridePassengers) ?_
    apply List.map_congr_left
    intro r _
    by_cases hc : (r.id == requestId && r.status == RideStatus.PENDING) = true
    · simp [Function.comp, hc]
    · have hc' : (r.id == requestId && r.status == RideStatus.PENDING) = false := by
        revert hc; cases r.id == requestId && r.status == RideStatus.PENDING <;> simp
      simp [Function.comp, hc']
  · unfold markNoDriverAvailable
    simp only [List.map_map]
    apply List.map_congr_left
    intro r _
    by_cases hc : (r.id == requestId && r.status == RideStatus.PENDING) = true
    · simp [Function.comp, hc]
    · have hc' : (r.id == requestId && r.status == RideStatus.PENDING) = false := by
        revert hc; cases r.id == requestId && r.status == RideStatus.PENDING <;> simp
      simp [Function.comp, hc']

/-- C2 counterexample: on a PENDING request stored at version 5,
`markNoDriverAvailable` succeeds (the status becomes CANCELLED) yet the
version stays 5 — the update does not increment the version, contradicting
the claimed optimistic-concurrency contract. -/
theorem markNoDriverAvailable_version_counterexample :
    ((markNoDriverAvailable c2DB "r1").requests.map (fun r => (r.status, r.version)))
      = [(RideStatus.CANCELLED, 5)] := by decide

/-! ## C7 — fare monotonicity and minimum fare -/

/-- The time multiplier is always positive (1.5 / 1.3 / 1). -/
theorem getTimeMultiplier_pos (hour : ℤ) : 0 < getTimeMultiplier hour := by
  unfold getTimeMultiplier
  split_ifs <;> norm_num

/-- The pooling discount never exceeds 100 %. -/
theorem getPoolingDiscount_le_one (n : ℕ) : getPoolingDiscount n ≤ 1 := by
  unfold getPoolingDiscount
  split_ifs <;> norm_num

/-- Rounding to two decimals is monotone. -/
theorem round2_mono {a b : ℚ} (h : a ≤ b) : round2 a ≤ round2 b := by
  unfold round2
  have h1 : (⌊a * 100 + 1 / 2⌋ : ℤ) ≤ ⌊b * 100 + 1 / 2⌋ := Int.floor_le_floor (by linarith)
  exact (div_le_div_iff_of_pos_right (by norm_num)).mpr (Int.cast_le.mpr h1)

/-- C7: holding all other parameters fixed, `calculateFare` is monotone
non-decreasing in `actualDistance` and in `surgeFactor` (for non-negative
inputs), and never returns less than the configured minimum fare of 8. -/
theorem calculateFare_monotone (p : PricingParams) :
    (∀ d₁ d₂ : ℚ, 0 ≤ p.surgeFactor → d₁ ≤ d₂ →
      calculateFare { p with actualDistance := d₁ }
        ≤ calculateFare { p with actualDistance := d₂ }) ∧
    (∀ s₁ s₂ : ℚ, 0 ≤ p.actualDistance → 0 ≤ s₁ → s₁ ≤ s₂ →
      calculateFare { p with surgeFactor := s₁ }
        ≤ calculateFare { p with surgeFactor := s₂ }) ∧
    8 ≤ calculateFare p := by
  have hT := getTimeMultiplier_pos p.timeOfDay
  have hdisc : (0 : ℚ) ≤ 1 - getPoolingDiscount (jsOrNat p.totalPassengersInRide p.passengers) := by
    have := getPoolingDiscount_le_one (jsOrNat p.totalPassengersInRide p.passengers)
    linarith
  have hn : (0 : ℚ) ≤ (p.passengers : ℚ) := Nat.cast_nonneg _
  refine ⟨?_, ?_, ?_⟩
  · intro d₁ d₂ hs h
    simp only [calculateFare]
    apply max_le_max le_rfl
    apply round2_mono
    have key : BASE_FARE + d₁ * RATE_PER_KM ≤ BASE_FARE + d₂ * RATE_PER_KM := by
      unfold BASE_FARE RATE_PER_KM
      linarith
    exact mul_le_mul_of_nonneg_right
      (mul_le_mul_of_nonneg_right
        (mul_le_mul_of_nonneg_right (mul_le_mul_of_nonneg_right key hs) hT.le) hdisc) hn
  · intro s₁ s₂ hd hs1 hs
    simp only [calculateFare]
    apply max_le_max le_rfl
    apply round2_mono
    have hA : (0 : ℚ) ≤ BASE_FARE + p.actualDistance * RATE_PER_KM := by
      have : (0 : ℚ) ≤ p.actualDistance * RATE_PER_KM := by
        unfold RATE_PER_KM
        positivity
      unfold BASE_FARE
      linarith
    exact mul_le_mul_of_nonneg_right
      (mul_le_mul_of_nonneg_right
        (mul_le_mul_of_nonneg_right (mul_le_mul_of_nonneg_left hs hA) hT.le) hdisc) hn
  · simp only [calculateFare, MIN_FARE]
    exact le_max_left _ _

/-- C7 witness: concrete monotonicity instances and the minimum-fare floor. -/
theorem calculateFare_monotone_witness :
    ((0 : ℚ) ≤ c7Params.surgeFactor ∧
      calculateFare { c7Params with actualDistance := 1 }
        ≤ calculateFare { c7Params with actualDistance := 2 }) ∧
    ((0 : ℚ) ≤ c7Params.actualDistance ∧
      calculateFare { c7Params with surgeFactor := 1 }
        ≤ calculateFare { c7Params with surgeFactor := 2 }) ∧
    8 ≤ calculateFare c7Params :=
  ⟨⟨by norm_num [c7Params],
      (calculateFare_monotone c7Params).1 1 2 (by norm_num [c7Params]) (by norm_num)⟩,
    ⟨by norm_num [c7Params],
      (calculateFare_monotone c7Params).2.1 1 2 (by norm_num [c7Params]) (by norm_num)
        (by norm_num)⟩,
    (calculateFare_monotone c7Params).2.2⟩

/-! ## C3 — booking failure rolls back -/

/-- C3: every failing `confirmBooking` leaves the store exactly as it was
(the transaction rolls back before any visible write), and in particular an
empty available-cab pool fails with the no-available-cabs conflict while the
target request row — like every other row — is unchanged (hence still
PENDING). -/
theorem confirmBooking_rollback (s : DBState) (requestId newRideId : String)
    (d : BookingData) :
    (∀ e, (confirmBooking s requestId newRideId d).2 = .error e →
      (confirmBooking s requestId newRideId d).1 = s) ∧
    (∀ r, s.requests.find? (fun x => x.id == requestId) = some r →
      r.status = RideStatus.PENDING →
      s.cabs.find? (fun c => c.isAvailable) = none →
      confirmBooking s requestId newRideId d = (s, .error .noAvailableCabs)) := by
  constructor
  · intro e h
    unfold confirmBooking at h ⊢
    cases hfind : s.requests.find? (fun x => x.id == requestId) with
    | none => simp only [hfind]
    | some r =>
      simp only [hfind] at h ⊢
      by_cases hst : (r.status == RideStatus.PENDING) = true
      · simp only [hst, if_true] at h ⊢
        cases hcab : s.cabs.find? (fun c => c.isAvailable) with
        | none => simp only [hcab]
        | some cab =>
          simp only [hcab] at h
          exact absurd h (by simp)
      · have hst' : (r.status == RideStatus.PENDING) = false := by
          revert hst; cases r.status == RideStatus.PENDING <;> simp
        simp [hst']
  · intro r hfind hpending hcab
    unfold confirmBooking
    simp only [hfind, hpending, hcab]
    rfl

/-- C3 witness: in a store whose only cab is reserved, booking the PENDING
request fails with the no-available-cabs conflict and the store (including
the PENDING request) is untouched. -/
theorem confirmBooking_rollback_witness :
    confirmBooking c3DB "r1" "ride1" c3Data = (c3DB, .error .noAvailableCabs) :=
  (confirmBooking_rollback c3DB "r1" "ride1" c3Data).2 (mkTestRequest "r1" 0 0 1 1 2)
    (of_decide_eq_true (by with_unfolding_all rfl)) rfl
    (of_decide_eq_true (by with_unfolding_all rfl))

/-! ## C9 — completing a trip twice -/

/-- C9: if `completeRide` succeeds once, calling it again on the same ride id
fails with the already-completed conflict and returns the intermediate store
unchanged — the cab is not freed twice (its availability and location fields
are exactly those of the post-first-call store) and no request is
re-transitioned. -/
theorem completeRide_second_conflict (s s' : DBState) (rideId : String)
    (h : completeRide s rideId = (s', .ok ())) :
    completeRide s' rideId = (s', .error .alreadyCompleted) := by
  unfold completeRide at h
  cases hfind : s.rides.find? (fun r => r.id == rideId) with
  | none =>
    simp only [hfind] at h
    exact absurd h (by simp)
  | some ride =>
    simp only [hfind] at h
    by_cases h1 : (ride.status == RideStatus.COMPLETED) = true
    · simp only [h1, if_true] at h
      exact absurd h (by simp)
    · have h1' : (ride.status == RideStatus.COMPLETED) = false := by
        revert h1; cases ride.status == RideStatus.COMPLETED <;> simp
      rw [h1', if_neg (by simp)] at h
      by_cases h2 : (ride.status == RideStatus.CANCELLED) = true
      · simp only [h2, if_true] at h
        exact absurd h (by simp)
      · have h2' : (ride.status == RideStatus.CANCELLED) = false := by
          revert h2; cases ride.status == RideStatus.CANCELLED <;> simp
        rw [h2', if_neg (by simp)] at h
        have hs' := congrArg Prod.fst h
        dsimp only at hs'
        have hrides : s'.rides = s.rides.map (fun r =>
            if r.id == rideId then
              { r with status := RideStatus.COMPLETED, version := r.version + 1 }
            else r) := by
          rw [← hs']
          cases hfd : finalDropoff ride.route with
          | none => simp only [hfd]
          | some latlng =>
            obtain ⟨lat, lng⟩ := latlng
            simp only [hfd]
            split <;> rfl
        unfold completeRide
        rw [hrides]
        have hfm := find?_map_ite (fun r : RideRow => r.id == rideId)
          (fun r => { r with status := RideStatus.COMPLETED, version := r.version + 1 })
          (fun a => rfl) s.rides
        beta_reduce at hfm
        rw [hfm, hfind]
        simp

/-- C9 witness: completing the concrete CONFIRMED ride succeeds once, and the
second call conflicts while leaving the post-completion store unchanged. -/
theorem completeRide_second_conflict_witness :
    completeRide c9DB "ride1" = (c9DBCompleted, .ok ()) ∧
    completeRide c9DBCompleted "ride1" = (c9DBCompleted, .error .alreadyCompleted) :=
  ⟨of_decide_eq_true (by with_unfolding_all rfl),
    completeRide_second_conflict c9DB c9DBCompleted "ride1"
      (of_decide_eq_true (by with_unfolding_all rfl))⟩

/-! ## C10 — what passenger legs record -/

/-- Membership through the stable insertion. -/
theorem mem_insertByScore {x m : MatchResult} {l : List MatchResult} :
    x ∈ insertByScore m l ↔ x = m ∨ x ∈ l := by
  induction l with
  | nil => simp [insertByScore]
  | cons h t ih =>
    unfold insertByScore
    split
    · simp [List.mem_cons]
    · simp only [List.mem_cons, ih]
      tauto

/-- Membership through the stable sort. -/
theorem mem_sortByScoreDesc {x : MatchResult} {l : List MatchResult}
    (h : x ∈ sortByScoreDesc l) : x ∈ l := by
  induction l with
  | nil => simp [sortByScoreDesc] at h
  | cons m t ih =>
    unfold sortByScoreDesc at h
    rcases mem_insertByScore.mp h with h1 | h2
    · simp [h1]
    · exact List.mem_cons_of_mem _ (ih h2)

/-- The booking loop appends exactly one leg row per passenger, copying the
payload's fields verbatim. -/
theorem foldl_applyPassengerBooking_legs (newRideId : String) :
    ∀ (ps : List PassengerInfo) (st : DBState),
    (ps.foldl (applyPassengerBooking newRideId) st).ridePassengers
      = st.ridePassengers ++ ps.map (fun p =>
          { rideId := newRideId, requestId := p.requestId, pickupOrder := p.pickupOrder,
            dropoffOrder := p.dropoffOrder, fare := p.fare,
            detourMinutes := p.detourMinutes }) := by
  intro ps
  induction ps with
  | nil => intro st; simp
  | cons p ps ih =>
    intro st
    simp only [List.foldl_cons, ih, List.map_cons]
    unfold applyPassengerBooking
    simp

/-- C10 (amended): every leg of every MatchResult produced by `findMatches`
carries `detourMinutes = 0` (and `fare = 0` before the pricing pass) — the
per-member detour computed for validation and scoring is never written to
the leg — and a successful booking persists the payload's leg fields
(including the zero detour minutes) verbatim into `ride_passengers`. -/
theorem legsRecordZeroDetour :
    (∀ (dist : Location → Location → ℚ) (request : RideRequest)
        (activeRequests : List RideRequest),
      ∀ m ∈ findMatches dist request activeRequests,
      ∀ p ∈ m.ride.passengers, p.detourMinutes = 0 ∧ p.fare = 0) ∧
    (∀ (s : DBState) (requestId newRideId : String) (d : BookingData) (s' : DBState)
        (out : String), confirmBooking s requestId newRideId d = (s', .ok out) →
      s'.ridePassengers = s.ridePassengers ++ d.passengers.map (fun p =>
        { rideId := newRideId, requestId := p.requestId, pickupOrder := p.pickupOrder,
          dropoffOrder := p.dropoffOrder, fare := p.fare,
          detourMinutes := p.detourMinutes })) := by
  constructor
  · intro dist request activeRequests m hm p hp
    have hm' : m ∈ soloMatch dist request :: pooledMatches dist request activeRequests :=
      mem_sortByScoreDesc (List.take_subset _ _ hm)
    rcases List.mem_cons.mp hm' with h | h
    · subst h
      simp only [soloMatch, createRide, List.mem_map] at hp
      obtain ⟨r, _, rfl⟩ := hp
      exact ⟨rfl, rfl⟩
    · obtain ⟨g, _, heq⟩ := List.mem_filterMap.mp h
      unfold mkPooledMatch at heq
      dsimp only at heq
      split at heq
      · exact absurd heq (by simp)
      · split at heq
        · exact absurd heq (by simp)
        · split at heq
          · exact absurd heq (by simp)
          · have hm3 := Option.some.inj heq
            subst hm3
            simp only [createRide, List.mem_map] at hp
            obtain ⟨r, _, rfl⟩ := hp
            exact ⟨rfl, rfl⟩
  · intro s requestId newRideId d s' out h
    unfold confirmBooking at h
    cases hfind : s.requests.find? (fun x => x.id == requestId) with
    | none => simp only [hfind] at h; exact absurd h (by simp)
    | some r =>
      simp only [hfind] at h
      by_cases hst : (r.status == RideStatus.PENDING) = true
      · simp only [hst, if_true] at h
        cases hcab : s.cabs.find? (fun c => c.isAvailable) with
        | none => simp only [hcab] at h; exact absurd h (by simp)
        | some cab =>
          simp only [hcab] at h
          have hs' := congrArg Prod.fst h
          dsimp only at hs'
          rw [← hs', foldl_applyPassengerBooking_legs]
      · have hst' : (r.status == RideStatus.PENDING) = false := by
          revert hst; cases r.status == RideStatus.PENDING <;> simp
        rw [hst', if_neg (by simp)] at h
        exact absurd h (by simp)

/-- C10 witness: the solo leg of a concrete request records zero detour
minutes and zero fare. -/
theorem legsRecordZeroDetour_witness :
    soloMatch zeroDist c10WitnessReq ∈ findMatches zeroDist c10WitnessReq [] ∧
    c10WitnessLeg ∈ (soloMatch zeroDist c10WitnessReq).ride.passengers ∧
    (c10WitnessLeg.detourMinutes = 0 ∧ c10WitnessLeg.fare = 0) :=
  ⟨of_decide_eq_true (by with_unfolding_all rfl),
    of_decide_eq_true (by with_unfolding_all rfl),
    legsRecordZeroDetour.1 zeroDist c10WitnessReq []
      (soloMatch zeroDist c10WitnessReq)
      (of_decide_eq_true (by with_unfolding_all rfl))
      c10WitnessLeg (of_decide_eq_true (by with_unfolding_all rfl))⟩

/-- C10 counterexample: in the concrete pooled match of `c10ReqA` with
`c10ReqB`, member A suffers a 2-minute detour (the engine computes it and
reports it as the match's `detourTime`), yet every persisted-leg
`detourMinutes` field of that match is 0 — the leg does NOT record the
member's detour minutes. -/
theorem legsRecordZeroDetour_counterexample :
    calculateDetours gridDist [c10ReqB, c10ReqA]
        (optimizeRoute gridDist [c10ReqB, c10ReqA]) = [0, 2] ∧
    ((findMatches gridDist c10ReqA [c10ReqB]).filter
        (fun m => decide (0 < m.detourTime))).map
        (fun m => (m.detourTime, m.ride.passengers.map (fun p => p.detourMinutes)))
      = [(2, [0, 0])] :=
  ⟨of_decide_eq_true (by with_unfolding_all rfl),
    of_decide_eq_true (by with_unfolding_all rfl)⟩

/-! ## C5 — per-leg fares: discount tier from total occupancy, revenue from
own booking size -/

/-- C5: every leg of every MatchResult returned by the service-level
`findMatches` is priced by `calculateFare` at that leg's own distance and its
own booking's passenger count, while the pooling-discount tier is chosen by
the trip's total passenger count (the sum over all legs of the shared ride);
when that total is nonzero the fare is exactly the discounted formula scaled
by the leg's own passenger count. -/
theorem serviceFares_spec (dist : Location → Location → ℚ)
    (pdist : ℕ → ℕ → List Location → ℚ) (surge : ℚ) (hour : ℤ)
    (request : RideRequest) (activeRequests : List RideRequest) :
    ∀ m' ∈ serviceFindMatches dist pdist surge hour request activeRequests,
    ∃ m ∈ findMatches dist request activeRequests,
      m' = applyFares pdist surge hour m ∧
      ∀ p' ∈ m'.ride.passengers, ∃ p ∈ m.ride.passengers,
        p'.passengers = p.passengers ∧
        p'.fare = calculateFare
          ⟨pdist p.pickupOrder p.dropoffOrder m.ride.route,
            pdist p.pickupOrder p.dropoffOrder m.ride.route,
            p.passengers, surge, hour, some (totalPassengersInRide m.ride)⟩ ∧
        (totalPassengersInRide m.ride ≠ 0 →
          p'.fare = max MIN_FARE (round2
            ((BASE_FARE + pdist p.pickupOrder p.dropoffOrder m.ride.route * RATE_PER_KM)
              * surge * getTimeMultiplier hour
              * (1 - getPoolingDiscount (totalPassengersInRide m.ride))
              * (p.passengers : ℚ)))) := by
  intro m' hm'
  obtain ⟨m, hm, rfl⟩ := List.mem_map.mp hm'
  refine ⟨m, hm, rfl, ?_⟩
  intro p' hp'
  unfold applyFares at hp'
  dsimp only at hp'
  obtain ⟨p, hp, rfl⟩ := List.mem_map.mp hp'
  refine ⟨p, hp, rfl, rfl, ?_⟩
  intro ht
  show calculateFare _ = _
  unfold calculateFare jsOrNat
  dsimp only
  rw [if_neg ht]

/-- C5 witness: the concrete priced solo match satisfies the fare contract. -/
theorem serviceFares_spec_witness :
    c5Match ∈ serviceFindMatches zeroDist zeroPdist 1 12 c5Req [] ∧
    ∃ m ∈ findMatches zeroDist c5Req [], c5Match = applyFares zeroPdist 1 12 m ∧
      ∀ p' ∈ c5Match.ride.passengers, ∃ p ∈ m.ride.passengers,
        p'.passengers = p.passengers ∧
        p'.fare = calculateFare
          ⟨zeroPdist p.pickupOrder p.dropoffOrder m.ride.route,
            zeroPdist p.pickupOrder p.dropoffOrder m.ride.route,
            p.passengers, 1, 12, some (totalPassengersInRide m.ride)⟩ ∧
        (totalPassengersInRide m.ride ≠ 0 →
          p'.fare = max MIN_FARE (round2
            ((BASE_FARE + zeroPdist p.pickupOrder p.dropoffOrder m.ride.route * RATE_PER_KM)
              * 1 * getTimeMultiplier 12
              * (1 - getPoolingDiscount (totalPassengersInRide m.ride))
              * (p.passengers : ℚ)))) :=
  ⟨of_decide_eq_true (by with_unfolding_all rfl),
    serviceFares_spec zeroDist zeroPdist 1 12 c5Req [] c5Match
      (of_decide_eq_true (by with_unfolding_all rfl))⟩

/-! ## C1 — the solo option in the returned top 5 -/

/-- Inserting an element adds exactly its own contribution to any count. -/
theorem countP_insertByScore (p : MatchResult → Bool) (m : MatchResult)
    (l : List MatchResult) :
    (insertByScore m l).countP p = l.countP p + (if p m then 1 else 0) := by
  induction l with
  | nil => simp [insertByScore, List.countP_cons]
  | cons h t ih =>
    unfold insertByScore
    split
    · rw [List.countP_cons]
    · rw [List.countP_cons, ih, List.countP_cons]
      omega

/-- The stable sort preserves counts. -/
theorem countP_sortByScoreDesc (p : MatchResult → Bool) (l : List MatchResult) :
    (sortByScoreDesc l).countP p = l.countP p := by
  induction l with
  | nil => rfl
  | cons m t ih =>
    unfold sortByScoreDesc
    rw [countP_insertByScore, ih, List.countP_cons]

/-- An element freshly inserted into a list survives `take n` whenever fewer
than `n` existing elements outscore it. -/
theorem mem_take_insertByScore :
    ∀ (l : List MatchResult) (n : ℕ) (m : MatchResult),
    l.countP (fun x => decide (m.score < x.score)) < n →
    m ∈ (insertByScore m l).take n := by
  intro l
  induction l with
  | nil =>
    intro n m hn
    unfold insertByScore
    cases n with
    | zero => exact absurd hn (by omega)
    | succ k => simp [List.take_succ_cons]
  | cons h t ih =>
    intro n m hn
    unfold insertByScore
    by_cases hc : h.score ≤ m.score
    · rw [if_pos hc]
      cases n with
      | zero => exact absurd hn (by omega)
      | succ k => simp [List.take_succ_cons]
    · rw [if_neg hc]
      have hph : decide (m.score < h.score) = true := by
        simp only [decide_eq_true_eq]
        exact not_le.mp hc
      cases n with
      | zero => exact absurd hn (by omega)
      | succ k =>
        rw [List.take_succ_cons]
        refine List.mem_cons_of_mem _ (ih k m ?_)
        rw [List.countP_cons] at hn
        simp only [hph, if_true] at hn
        omega

/-- C1 (amended): the solo option always carries score 50, savings 0 and
detour 0, and it appears among the at-most-5 returned results whenever fewer
than 5 admitted pooled candidates score strictly above 50 (the stable sort
keeps the solo option, pushed first, ahead of equal scores). -/
theorem findMatches_includes_solo (dist : Location → Location → ℚ)
    (request : RideRequest) (activeRequests : List RideRequest) :
    (soloMatch dist request).score = 50 ∧ (soloMatch dist request).savings = 0 ∧
    (soloMatch dist request).detourTime = 0 ∧
    ((pooledMatches dist request activeRequests).countP
        (fun x => decide ((50 : ℚ) < x.score)) < 5 →
      soloMatch dist request ∈ findMatches dist request activeRequests) := by
  refine ⟨rfl, rfl, rfl, fun hc => ?_⟩
  unfold findMatches sortByScoreDesc
  apply mem_take_insertByScore
  rw [countP_sortByScoreDesc]
  exact hc

/-- C1 witness: with no pooling candidates the solo option (score 50,
savings 0, detour 0) is returned. -/
theorem findMatches_includes_solo_witness :
    (pooledMatches zeroDist c1WitnessReq []).countP
        (fun x => decide ((50 : ℚ) < x.score)) < 5 ∧
    soloMatch zeroDist c1WitnessReq ∈ findMatches zeroDist c1WitnessReq [] :=
  ⟨of_decide_eq_true (by with_unfolding_all rfl),
    (findMatches_includes_solo zeroDist c1WitnessReq []).2.2.2
      (of_decide_eq_true (by with_unfolding_all rfl))⟩

/-- C1 counterexample: with five identical nearby 2-passenger candidates,
each candidate-plus-target pool scores 100, so the five pooled options fill
the returned top 5 and the solo option (score 50) is NOT among the results —
`findMatches` does not always return the solo option. -/
theorem findMatches_includes_solo_counterexample :
    soloMatch gridDist c1Target ∉ findMatches gridDist c1Target c1Cands :=
  of_decide_eq_true (by with_unfolding_all rfl)

/-! ## C4 — route optimality against the naive route -/

/-- Dropoffs of already-picked-up members always pass the validity scan. -/
theorem isValidRouteAux_dropoffs :
    ∀ (ds : List RideRequest) (S : List String),
    (∀ r ∈ ds, memId r.id S = true) →
    isValidRouteAux S (ds.map dropoffWp) = true := by
  intro ds
  induction ds with
  | nil => intro S _; rfl
  | cons d ds ih =>
    intro S h
    show (memId (dropoffWp d).requestId S && isValidRouteAux S (ds.map dropoffWp)) = true
    rw [show (dropoffWp d).requestId = d.id from rfl, h d (List.mem_cons_self d ds),
      ih S (fun r hr => h r (List.mem_cons_of_mem d hr))]
    rfl

/-- The scan accepts "all pickups, then the dropoffs of those members". -/
theorem isValidRouteAux_naive :
    ∀ (rs : List RideRequest) (S : List String) (ds : List RideRequest),
    (∀ r ∈ ds, memId r.id S = true ∨ r ∈ rs) →
    isValidRouteAux S (rs.map pickupWp ++ ds.map dropoffWp) = true := by
  intro rs
  induction rs with
  | nil =>
    intro S ds h
    apply isValidRouteAux_dropoffs
    intro r hr
    rcases h r hr with hm | hm
    · exact hm
    · exact absurd hm (List.not_mem_nil r)
  | cons r rs ih =>
    intro S ds h
    show isValidRouteAux (r.id :: S) (rs.map pickupWp ++ ds.map dropoffWp) = true
    apply ih
    intro x hx
    rcases h x hx with hm | hm
    · left
      show (r.id == x.id || memId x.id S) = true
      rw [hm, Bool.or_true]
    · rcases List.mem_cons.mp hm with rfl | hm'
      · left
        show (x.id == x.id || memId x.id S) = true
        rw [beq_self_eq_true]
        rfl
      · right
        exact hm'

/-- The naive route (pickups then dropoffs, input order) is a valid route. -/
theorem naiveRoute_valid (reqs : List RideRequest) : isValidRoute (naiveRoute reqs) = true :=
  isValidRouteAux_naive reqs [] reqs (fun _ hr => Or.inr hr)

/-- The naive route is a permutation of the interleaved waypoint list. -/
theorem naiveRoute_perm (reqs : List RideRequest) :
    (naiveRoute reqs).Perm (routeWaypoints reqs) := by
  induction reqs with
  | nil => exact List.Perm.refl _
  | cons r rs ih =>
    show ((pickupWp r :: rs.map pickupWp) ++ dropoffWp r :: rs.map dropoffWp).Perm
      (pickupWp r :: dropoffWp r :: routeWaypoints rs)
    rw [List.cons_append]
    apply List.Perm.cons
    exact List.perm_middle.trans (List.Perm.cons _ ih)

/-- A step of the best-route fold starting from a `some` stays `some`. -/
theorem pickStep_some (dist : Location → Location → ℚ) (p : List Waypoint × ℚ)
    (r : List Waypoint) : (pickStep dist (some p) r).isSome = true := by
  obtain ⟨br, bd⟩ := p
  unfold pickStep
  dsimp only
  split <;> rfl

/-- The best-route fold started from a `some` accumulator returns `some`. -/
theorem foldl_pickStep_some (dist : Location → Location → ℚ) :
    ∀ (l : List (List Waypoint)) (p : List Waypoint × ℚ),
    ((l.foldl (pickStep dist) (some p))).isSome = true := by
  intro l
  induction l with
  | nil => intro p; rfl
  | cons x xs ih =>
    intro p
    rw [List.foldl_cons]
    obtain ⟨q, hq⟩ := Option.isSome_iff_exists.mp (pickStep_some dist p x)
    rw [hq]
    exact ih q

/-- On a nonempty route list, `pickBestRoute` returns a best route. -/
theorem pickBestRoute_isSome (dist : Location → Location → ℚ)
    (l : List (List Waypoint)) (hl : l ≠ []) : (pickBestRoute dist l).isSome = true := by
  cases l with
  | nil => exact absurd rfl hl
  | cons x xs =>
    unfold pickBestRoute
    rw [List.foldl_cons, show pickStep dist none x
      = some (x, calculateRouteDistance dist (x.map (·.location))) from rfl]
    exact foldl_pickStep_some dist xs _

/-- The distance returned by the fold is a lower bound for every candidate
route's distance, and for the accumulator's distance. -/
theorem foldl_pickStep_le (dist : Location → Location → ℚ) :
    ∀ (l : List (List Waypoint)) (acc : Option (List Waypoint × ℚ))
      (r : List Waypoint) (d : ℚ), l.foldl (pickStep dist) acc = some (r, d) →
    (∀ r' ∈ l, d ≤ calculateRouteDistance dist (r'.map (·.location))) ∧
    (∀ r0 d0, acc = some (r0, d0) → d ≤ d0) := by
  intro l
  induction l with
  | nil =>
    intro acc r₀ d h
    refine ⟨fun r' hr' => absurd hr' (List.not_mem_nil r'), fun r0 d0 ha => ?_⟩
    rw [List.foldl_nil] at h
    rw [ha] at h
    obtain ⟨-, h2⟩ := Prod.mk.injEq .. ▸ Option.some.inj h
    exact le_of_eq h2.symm
  | cons x xs ih =>
    intro acc r d h
    rw [List.foldl_cons] at h
    obtain ⟨h1, h2⟩ := ih (pickStep dist acc x) r d h
    constructor
    · intro r' hr'
      rcases List.mem_cons.mp hr' with rfl | hmem
      · cases acc with
        | none => exact h2 r' _ rfl
        | some p =>
          obtain ⟨br, bd⟩ := p
          by_cases hlt : calculateRouteDistance dist (r'.map (·.location)) < bd
          · exact h2 r' _ (by unfold pickStep; dsimp only; rw [if_pos hlt])
          · have hd0 : d ≤ bd := h2 br bd (by unfold pickStep; dsimp only; rw [if_neg hlt])
            exact le_trans hd0 (not_lt.mp hlt)
      · exact h1 r' hmem
    · intro r0 d0 ha
      subst ha
      by_cases hlt : calculateRouteDistance dist (x.map (·.location)) < d0
      · have := h2 x _ (by unfold pickStep; dsimp only; rw [if_pos hlt])
        exact le_trans this (le_of_lt hlt)
      · exact h2 r0 d0 (by unfold pickStep; dsimp only; rw [if_neg hlt])

/-- The route returned by the fold is the accumulator's or one of the list's,
with its distance correctly computed. -/
theorem foldl_pickStep_shape (dist : Location → Location → ℚ) :
    ∀ (l : List (List Waypoint)) (acc : Option (List Waypoint × ℚ))
      (r : List Waypoint) (d : ℚ), l.foldl (pickStep dist) acc = some (r, d) →
    acc = some (r, d) ∨ (r ∈ l ∧ d = calculateRouteDistance dist (r.map (·.location))) := by
  intro l
  induction l with
  | nil =>
    intro acc r d h
    rw [List.foldl_nil] at h
    exact Or.inl h
  | cons x xs ih =>
    intro acc r d h
    rw [List.foldl_cons] at h
    rcases ih (pickStep dist acc x) r d h with hstep | ⟨hmem, hd⟩
    · cases acc with
      | none =>
        rw [show pickStep dist none x
          = some (x, calculateRouteDistance dist (x.map (·.location))) from rfl] at hstep
        obtain ⟨h1, h2⟩ := Prod.mk.injEq .. ▸ Option.some.inj hstep.symm
        exact Or.inr ⟨h1 ▸ List.mem_cons_self x xs, h2.symm ▸ (by rw [h1])⟩
      | some p =>
        obtain ⟨br, bd⟩ := p
        by_cases hlt : calculateRouteDistance dist (x.map (·.location)) < bd
        · rw [show pickStep dist (some (br, bd)) x
            = some (x, calculateRouteDistance dist (x.map (·.location))) from by
              unfold pickStep; dsimp only; rw [if_pos hlt]] at hstep
          obtain ⟨h1, h2⟩ := Prod.mk.injEq .. ▸ Option.some.inj hstep.symm
          exact Or.inr ⟨h1 ▸ List.mem_cons_self x xs, h2.symm ▸ (by rw [h1])⟩
        · rw [show pickStep dist (some (br, bd)) x = some (br, bd) from by
            unfold pickStep; dsimp only; rw [if_neg hlt]] at hstep
          exact Or.inl hstep
    · exact Or.inr ⟨List.mem_cons_of_mem x hmem, hd⟩

/-- For a nonempty group, the exhaustive optimizer returns a valid
permutation of the group's waypoints whose distance is at most the naive
route's distance. -/
theorem optimizeRouteDynamic_spec (dist : Location → Location → ℚ)
    (reqs : List RideRequest) :
    (optimizeRouteDynamic dist reqs).totalDistance ≤ naiveRouteDistance dist reqs ∧
    isValidRoute (optimizeRouteDynamic dist reqs).waypoints = true ∧
    (optimizeRouteDynamic dist reqs).waypoints.Perm (routeWaypoints reqs) := by
  have hmem : naiveRoute reqs ∈ generateValidRoutes (routeWaypoints reqs) := by
    unfold generateValidRoutes
    rw [List.mem_filter]
    exact ⟨List.mem_permutations.mpr (naiveRoute_perm reqs), naiveRoute_valid reqs⟩
  have hne' : generateValidRoutes (routeWaypoints reqs) ≠ [] := by
    intro h0
    rw [h0] at hmem
    exact absurd hmem (List.not_mem_nil _)
  obtain ⟨⟨br, bd⟩, hbest⟩ :=
    Option.isSome_iff_exists.mp (pickBestRoute_isSome dist _ hne')
  have hbest' : (generateValidRoutes (routeWaypoints reqs)).foldl (pickStep dist) none
      = some (br, bd) := hbest
  have hle := (foldl_pickStep_le dist _ none br bd hbest').1
  have hshape := foldl_pickStep_shape dist _ none br bd hbest'
  have hbr : br ∈ generateValidRoutes (routeWaypoints reqs) := by
    rcases hshape with hnone | ⟨hm, -⟩
    · exact absurd hnone (by simp)
    · exact hm
  have hbrv := (List.mem_filter.mp hbr).2
  have hbrp := List.mem_permutations.mp (List.mem_filter.mp hbr).1
  unfold optimizeRouteDynamic
  rw [hbest]
  exact ⟨hle (naiveRoute reqs) hmem, hbrv, hbrp⟩

/-- From a valid scan, every dropoff is preceded by a pickup of the same
request id (or its id was already in the carried set). -/
theorem isValidRouteAux_precede :
    ∀ (xs : List Waypoint) (S : List String) (w : Waypoint) (ys : List Waypoint),
    isValidRouteAux S (xs ++ w :: ys) = true → w.type = WpType.dropoff →
    memId w.requestId S = true ∨
      ∃ w' ∈ xs, w'.type = WpType.pickup ∧ w'.requestId = w.requestId := by
  intro xs
  induction xs with
  | nil =>
    intro S w ys h hw
    left
    obtain ⟨t, loc, rid, pass⟩ := w
    dsimp only at hw
    subst hw
    exact (Bool.and_eq_true ..).mp h |>.1
  | cons x xs ih =>
    intro S w ys h hw
    obtain ⟨t, loc, rid, pass⟩ := x
    cases t with
    | pickup =>
      rw [List.cons_append] at h
      rcases ih (rid :: S) w ys h hw with hmem | ⟨w', hw', ht', hid'⟩
      · have hmem' : (rid == w.requestId || memId w.requestId S) = true := hmem
        rcases (Bool.or_eq_true ..).mp hmem' with hbeq | hS
        · right
          exact ⟨⟨WpType.pickup, loc, rid, pass⟩, List.mem_cons_self _ _, rfl, eq_of_beq hbeq⟩
        · left
          exact hS
      · right
        exact ⟨w', List.mem_cons_of_mem _ hw', ht', hid'⟩
    | dropoff =>
      rw [List.cons_append] at h
      have h2 := ((Bool.and_eq_true ..).mp h).2
      rcases ih S w ys h2 hw with hmem | ⟨w', hw', ht', hid'⟩
      · left
        exact hmem
      · right
        exact ⟨w', List.mem_cons_of_mem _ hw', ht', hid'⟩

/-- Waypoints of group members appear in the interleaved waypoint list. -/
theorem mem_routeWaypoints_of_mem :
    ∀ (reqs : List RideRequest) (r : RideRequest), r ∈ reqs →
    pickupWp r ∈ routeWaypoints reqs ∧ dropoffWp r ∈ routeWaypoints reqs := by
  intro reqs
  induction reqs with
  | nil => intro r hr; exact absurd hr (List.not_mem_nil r)
  | cons x xs ih =>
    intro r hr
    rcases List.mem_cons.mp hr with rfl | hr'
    · exact ⟨List.mem_cons_self _ _, List.mem_cons_of_mem _ (List.mem_cons_self _ _)⟩
    · obtain ⟨h1, h2⟩ := ih r hr'
      exact ⟨List.mem_cons_of_mem _ (List.mem_cons_of_mem _ h1),
        List.mem_cons_of_mem _ (List.mem_cons_of_mem _ h2)⟩

/-- Every waypoint in the interleaved list is the pickup or dropoff waypoint
of a group member. -/
theorem mem_routeWaypoints_elim :
    ∀ (reqs : List RideRequest) (w : Waypoint), w ∈ routeWaypoints reqs →
    ∃ r ∈ reqs, w = pickupWp r ∨ w = dropoffWp r := by
  intro reqs
  induction reqs with
  | nil => intro w hw; exact absurd hw (List.not_mem_nil w)
  | cons x xs ih =>
    intro w hw
    rcases List.mem_cons.mp hw with rfl | hw' 
    · exact ⟨x, List.mem_cons_self _ _, Or.inl rfl⟩
    · rcases List.mem_cons.mp hw' with rfl | hw''
      · exact ⟨x, List.mem_cons_self _ _, Or.inr rfl⟩
      · obtain ⟨r, hr, hcase⟩ := ih w hw''
        exact ⟨r, List.mem_cons_of_mem _ hr, hcase⟩

/-- Any valid permutation of a group's waypoints places each member's pickup
strictly before that member's dropoff. -/
theorem route_precedence (reqs : List RideRequest) (route : List Waypoint)
    (hperm : route.Perm (routeWaypoints reqs)) (hvalid : isValidRoute route = true)
    (hnd : (reqs.map (fun r => r.id)).Nodup) :
    ∀ r ∈ reqs, ∃ l₁ l₂ l₃, route = l₁ ++ pickupWp r :: l₂ ++ dropoffWp r :: l₃ := by
  intro r hr
  have hdw : dropoffWp r ∈ route :=
    hperm.mem_iff.mpr (mem_routeWaypoints_of_mem reqs r hr).2
  obtain ⟨s, t, hst⟩ := List.append_of_mem hdw
  have hv : isValidRouteAux [] (s ++ dropoffWp r :: t) = true := by
    rw [← hst]
    exact hvalid
  rcases isValidRouteAux_precede s [] (dropoffWp r) t hv rfl with hmem | ⟨w', hw's, htype, hid⟩
  · exact absurd hmem (by simp [memId])
  · have hw'route : w' ∈ route := by
      rw [hst]
      exact List.mem_append_left _ hw's
    have hw'rw : w' ∈ routeWaypoints reqs := hperm.mem_iff.mp hw'route
    obtain ⟨r'', hr'', hcase⟩ := mem_routeWaypoints_elim reqs w' hw'rw
    have hw'eq : w' = pickupWp r := by
      rcases hcase with hcp | hcd
      · have hidr : r''.id = r.id := by
          have h1 : w'.requestId = r''.id := by rw [hcp]; rfl
          have h2 : w'.requestId = r.id := hid
          rw [h1] at h2
          exact h2
        have : r'' = r := List.inj_on_of_nodup_map hnd hr'' hr hidr
        rw [hcp, this]
      · rw [hcd] at htype
        exact absurd htype (by simp [dropoffWp])
    obtain ⟨s1, s2, hs⟩ := List.append_of_mem (hw'eq ▸ hw's)
    refine ⟨s1, s2, t, ?_⟩
    rw [hst, hs]

/-- C4 (amended): for every group of 1 to 4 requests with distinct ids — the
only sizes the Matching Engine ever passes — the optimizer's route places
each member's pickup before that member's dropoff, and its total distance is
at most the distance of the naive all-pickups-then-all-dropoffs route.  (For
groups of 5 or more, the greedy fallback can exceed the naive distance; see
the counterexample.) -/
theorem optimizeRoute_small_groups (dist : Location → Location → ℚ)
    (reqs : List RideRequest) (h1 : 1 ≤ reqs.length) (h4 : reqs.length ≤ 4)
    (hnd : (reqs.map (fun r => r.id)).Nodup) :
    (optimizeRoute dist reqs).totalDistance ≤ naiveRouteDistance dist reqs ∧
    ∀ r ∈ reqs, ∃ l₁ l₂ l₃, (optimizeRoute dist reqs).waypoints
      = l₁ ++ pickupWp r :: l₂ ++ dropoffWp r :: l₃ := by
  by_cases hl1 : reqs.length = 1
  · obtain ⟨r, rfl⟩ := List.length_eq_one.mp hl1
    unfold optimizeRoute
    rw [if_pos hl1]
    constructor
    · show dist r.pickup r.dropoff ≤ naiveRouteDistance dist [r]
      unfold naiveRouteDistance naiveRoute
      simp [calculateRouteDistance, pickupWp, dropoffWp]
    · intro r' hr'
      rcases List.mem_cons.mp hr' with rfl | h0
      · exact ⟨[], [], [], rfl⟩
      · exact absurd h0 (List.not_mem_nil r')
  · unfold optimizeRoute
    rw [if_neg hl1, if_pos h4]
    obtain ⟨hle, hvalid, hperm⟩ := optimizeRouteDynamic_spec dist reqs
    exact ⟨hle, route_precedence reqs _ hperm hvalid hnd⟩

/-- C4 witness: a singleton group satisfies both conclusions. -/
theorem optimizeRoute_small_groups_witness :
    (1 ≤ [c4WitnessReq].length ∧ [c4WitnessReq].length ≤ 4 ∧
      ([c4WitnessReq].map (fun r => r.id)).Nodup) ∧
    ((optimizeRoute gridDist [c4WitnessReq]).totalDistance
        ≤ naiveRouteDistance gridDist [c4WitnessReq] ∧
      ∀ r ∈ [c4WitnessReq], ∃ l₁ l₂ l₃, (optimizeRoute gridDist [c4WitnessReq]).waypoints
        = l₁ ++ pickupWp r :: l₂ ++ dropoffWp r :: l₃) :=
  ⟨⟨by decide, by decide, by decide⟩,
    optimizeRoute_small_groups gridDist [c4WitnessReq] (by decide) (by decide) (by decide)⟩

/-- C4 counterexample: for a 5-request group the greedy fallback is used and
its route (length 110) is strictly longer than the naive
all-pickups-then-all-dropoffs route (length 106) — the naive-route bound of
the claim fails for groups larger than 4. -/
theorem optimizeRoute_naive_bound_counterexample :
    naiveRouteDistance gridDist c4Reqs < (optimizeRoute gridDist c4Reqs).totalDistance :=
  of_decide_eq_true (by with_unfolding_all rfl)

/-! ## C2 (continued) — version discipline of all five coordinator updates -/

/-- `find?` through an unconditional row-map that preserves the selection
predicate. -/
theorem find?_map_pres {α : Type} (p : α → Bool) (g : α → α) (hg : ∀ a, p (g a) = p a) :
    ∀ l : List α, (l.map g).find? p = (l.find? p).map g := by
  intro l
  induction l with
  | nil => rfl
  | cons a t ih =>
    by_cases hp : p a = true
    · simp only [List.map_cons]
      rw [List.find?_cons_of_pos _ ((hg a).trans hp), List.find?_cons_of_pos _ hp]
      rfl
    · have hp' : p a = false := by revert hp; cases p a <;> simp
      simp only [List.map_cons]
      rw [List.find?_cons_of_neg, List.find?_cons_of_neg, ih]
      · simp [hp']
      · simp [hp', hg]

/-- A status-only update of request rows preserves every version. -/
theorem map_version_status_update (ids : List String) (st : RideStatus)
    (l : List RideRequest) :
    (l.map (fun r => if memId r.id ids then { r with status := st } else r)).map
      (fun r => r.version) = l.map (fun r => r.version) := by
  simp only [List.map_map]
  apply List.map_congr_left
  intro r _
  by_cases hc : memId r.id ids = true
  · simp [Function.comp, hc]
  · have hc' : memId r.id ids = false := by revert hc; cases memId r.id ids <;> simp
    simp [Function.comp, hc']

/-- `cancelRide`'s outcome is unchanged under arbitrary rewrites of the
stored ride versions: its guards read only id and status. -/
theorem cancelRide_version_oblivious (f : ℕ → ℕ) (s : DBState) (rideId : String) :
    (cancelRide (mapRideVersions f s) rideId).2 = (cancelRide s rideId).2 := by
  have hfm := find?_map_pres (fun r : RideRow => r.id == rideId)
    (fun r => { r with version := f r.version }) (fun a => rfl) s.rides
  beta_reduce at hfm
  unfold cancelRide mapRideVersions
  dsimp only
  rw [hfm]
  cases hfind : s.rides.find? (fun r => r.id == rideId) with
  | none => rfl
  | some ride =>
    by_cases h1 : (ride.status == RideStatus.CANCELLED) = true
    · simp [h1]
    · have h1' : (ride.status == RideStatus.CANCELLED) = false := by
        revert h1; cases ride.status == RideStatus.CANCELLED <;> simp
      by_cases h2 : (ride.status == RideStatus.COMPLETED) = true
      · simp [h1', h2]
      · have h2' : (ride.status == RideStatus.COMPLETED) = false := by
          revert h2; cases ride.status == RideStatus.COMPLETED <;> simp
        simp [h1', h2']

/-- `completeRide`'s outcome is likewise oblivious to ride versions. -/
theorem completeRide_version_oblivious (f : ℕ → ℕ) (s : DBState) (rideId : String) :
    (completeRide (mapRideVersions f s) rideId).2 = (completeRide s rideId).2 := by
  have hfm := find?_map_pres (fun r : RideRow => r.id == rideId)
    (fun r => { r with version := f r.version }) (fun a => rfl) s.rides
  beta_reduce at hfm
  unfold completeRide mapRideVersions
  dsimp only
  rw [hfm]
  cases hfind : s.rides.find? (fun r => r.id == rideId) with
  | none => rfl
  | some ride =>
    by_cases h1 : (ride.status == RideStatus.COMPLETED) = true
    · simp [h1]
    · have h1' : (ride.status == RideStatus.COMPLETED) = false := by
        revert h1; cases ride.status == RideStatus.COMPLETED <;> simp
      by_cases h2 : (ride.status == RideStatus.CANCELLED) = true
      · simp [h1', h2]
      · have h2' : (ride.status == RideStatus.CANCELLED) = false := by
          revert h2; cases ride.status == RideStatus.CANCELLED <;> simp
        simp [h1', h2']

/-- `startRide`'s outcome is likewise oblivious to ride versions. -/
theorem startRide_version_oblivious (f : ℕ → ℕ) (s : DBState) (rideId : String) :
    (startRide (mapRideVersions f s) rideId).2 = (startRide s rideId).2 := by
  have hfm := find?_map_pres (fun r : RideRow => r.id == rideId)
    (fun r => { r with version := f r.version }) (fun a => rfl) s.rides
  beta_reduce at hfm
  unfold startRide mapRideVersions
  dsimp only
  rw [hfm]
  cases hfind : s.rides.find? (fun r => r.id == rideId) with
  | none => rfl
  | some ride =>
    by_cases h1 : (ride.status == RideStatus.CONFIRMED) = true
    · simp [h1]
    · have h1' : (ride.status == RideStatus.CONFIRMED) = false := by
        revert h1; cases ride.status == RideStatus.CONFIRMED <;> simp
      simp [h1']

/-- `confirmBooking`'s outcome is unchanged under arbitrary rewrites of the
stored request versions: its guards read only id, status and availability. -/
theorem confirmBooking_version_oblivious (f : ℕ → ℕ) (s : DBState)
    (requestId newRideId : String) (d : BookingData) :
    (confirmBooking (mapRequestVersions f s) requestId newRideId d).2
      = (confirmBooking s requestId newRideId d).2 := by
  have hfm := find?_map_pres (fun r : RideRequest => r.id == requestId)
    (fun r => { r with version := f r.version }) (fun a => rfl) s.requests
  beta_reduce at hfm
  unfold confirmBooking mapRequestVersions
  dsimp only
  rw [hfm]
  cases hfind : s.requests.find? (fun r => r.id == requestId) with
  | none => rfl
  | some r =>
    by_cases hst : (r.status == RideStatus.PENDING) = true
    · cases hcab : s.cabs.find? (fun c => c.isAvailable) with
      | none => simp [hst, hcab]
      | some cab => simp [hst, hcab]
    · have hst' : (r.status == RideStatus.PENDING) = false := by
        revert hst; cases r.status == RideStatus.PENDING <;> simp
      simp [hst']

/-- Versions of all request rows survive `cancelRide` (its only request
update is a status reset). -/
theorem cancelRide_preserves_request_versions (s : DBState) (rideId : String) :
    (cancelRide s rideId).1.requests.map (fun r => r.version)
      = s.requests.map (fun r => r.version) := by
  unfold cancelRide
  cases hfind : s.rides.find? (fun r => r.id == rideId) with
  | none => rfl
  | some ride =>
    by_cases h1 : (ride.status == RideStatus.CANCELLED) = true
    · simp [h1]
    · have h1' : (ride.status == RideStatus.CANCELLED) = false := by
        revert h1; cases ride.status == RideStatus.CANCELLED <;> simp
      by_cases h2 : (ride.status == RideStatus.COMPLETED) = true
      · simp [h1', h2]
      · have h2' : (ride.status == RideStatus.COMPLETED) = false := by
          revert h2; cases ride.status == RideStatus.COMPLETED <;> simp
        simp only [h1', h2', Bool.false_eq_true, if_false]
        exact map_version_status_update (involvedRequestIds s rideId)
          RideStatus.PENDING s.requests

/-- Versions of all request rows survive `completeRide`. -/
theorem completeRide_preserves_request_versions (s : DBState) (rideId : String) :
    (completeRide s rideId).1.requests.map (fun r => r.version)
      = s.requests.map (fun r => r.version) := by
  unfold completeRide
  cases hfind : s.rides.find? (fun r => r.id == rideId) with
  | none => rfl
  | some ride =>
    by_cases h1 : (ride.status == RideStatus.COMPLETED) = true
    · simp [h1]
    · have h1' : (ride.status == RideStatus.COMPLETED) = false := by
        revert h1; cases ride.status == RideStatus.COMPLETED <;> simp
      by_cases h2 : (ride.status == RideStatus.CANCELLED) = true
      · simp [h1', h2]
      · have h2' : (ride.status == RideStatus.CANCELLED) = false := by
          revert h2; cases ride.status == RideStatus.CANCELLED <;> simp
        simp only [h1', h2', Bool.false_eq_true, if_false]
        cases hfd : finalDropoff ride.route with
        | none =>
          exact map_version_status_update (involvedRequestIds s rideId)
            RideStatus.COMPLETED s.requests
        | some latlng =>
          obtain ⟨lat, lng⟩ := latlng
          rw [apply_ite DBState.requests]
          dsimp only
          rw [ite_self]
          exact map_version_status_update (involvedRequestIds s rideId)
            RideStatus.COMPLETED s.requests

/-- Versions of all request rows survive `startRide`. -/
theorem startRide_preserves_request_versions (s : DBState) (rideId : String) :
    (startRide s rideId).1.requests.map (fun r => r.version)
      = s.requests.map (fun r => r.version) := by
  unfold startRide
  cases hfind : s.rides.find? (fun r => r.id == rideId) with
  | none => rfl
  | some ride =>
    by_cases hst : (ride.status == RideStatus.CONFIRMED) = true
    · simp only [hst, if_true]
      exact map_version_status_update (involvedRequestIds s rideId)
        RideStatus.IN_PROGRESS s.requests
    · have hst' : (ride.status == RideStatus.CONFIRMED) = false := by
        revert hst; cases ride.status == RideStatus.CONFIRMED <;> simp
      simp [hst']

/-- A successful cancellation updates the ride table by id only, setting
CANCELLED and incrementing the version. -/
theorem cancelRide_ok_rides (s : DBState) (rideId : String) (s' : DBState)
    (h : cancelRide s rideId = (s', .ok ())) :
    s'.rides = s.rides.map (fun r => if r.id == rideId then
      { r with status := RideStatus.CANCELLED, version := r.version + 1 } else r) := by
  unfold cancelRide at h
  cases hfind : s.rides.find? (fun r => r.id == rideId) with
  | none => simp only [hfind] at h; exact absurd h (by simp)
  | some ride =>
    simp only [hfind] at h
    by_cases h1 : (ride.status == RideStatus.CANCELLED) = true
    · simp only [h1, if_true] at h; exact absurd h (by simp)
    · have h1' : (ride.status == RideStatus.CANCELLED) = false := by
        revert h1; cases ride.status == RideStatus.CANCELLED <;> simp
      rw [h1', if_neg (by simp)] at h
      by_cases h2 : (ride.status == RideStatus.COMPLETED) = true
      · simp only [h2, if_true] at h; exact absurd h (by simp)
      · have h2' : (ride.status == RideStatus.COMPLETED) = false := by
          revert h2; cases ride.status == RideStatus.COMPLETED <;> simp
        rw [h2', if_neg (by simp)] at h
        have hs' := congrArg Prod.fst h
        dsimp only at hs'
        rw [← hs']

/-- A successful completion updates the ride table by id only, setting
COMPLETED and incrementing the version. -/
theorem completeRide_ok_rides (s : DBState) (rideId : String) (s' : DBState)
    (h : completeRide s rideId = (s', .ok ())) :
    s'.rides = s.rides.map (fun r => if r.id == rideId then
      { r with status := RideStatus.COMPLETED, version := r.version + 1 } else r) := by
  unfold completeRide at h
  cases hfind : s.rides.find? (fun r => r.id == rideId) with
  | none => simp only [hfind] at h; exact absurd h (by simp)
  | some ride =>
    simp only [hfind] at h
    by_cases h1 : (ride.status == RideStatus.COMPLETED) = true
    · simp only [h1, if_true] at h; exact absurd h (by simp)
    · have h1' : (ride.status == RideStatus.COMPLETED) = false := by
        revert h1; cases ride.status == RideStatus.COMPLETED <;> simp
      rw [h1', if_neg (by simp)] at h
      by_cases h2 : (ride.status == RideStatus.CANCELLED) = true
      · simp only [h2, if_true] at h; exact absurd h (by simp)
      · have h2' : (ride.status == RideStatus.CANCELLED) = false := by
          revert h2; cases ride.status == RideStatus.CANCELLED <;> simp
        rw [h2', if_neg (by simp)] at h
        have hs' := congrArg Prod.fst h
        dsimp only at hs'
        rw [← hs']
        cases hfd : finalDropoff ride.route with
        | none => simp only [hfd]
        | some latlng =>
          obtain ⟨lat, lng⟩ := latlng
          simp only [hfd]
          split <;> rfl

/-- A successful start updates the ride table by id only, setting
IN_PROGRESS and incrementing the version. -/
theorem startRide_ok_rides (s : DBState) (rideId : String) (s' : DBState)
    (h : startRide s rideId = (s', .ok ())) :
    s'.rides = s.rides.map (fun r => if r.id == rideId then
      { r with status := RideStatus.IN_PROGRESS, version := r.version + 1 } else r) := by
  unfold startRide at h
  cases hfind : s.rides.find? (fun r => r.id == rideId) with
  | none => simp only [hfind] at h; exact absurd h (by simp)
  | some ride =>
    simp only [hfind] at h
    by_cases hst : (ride.status == RideStatus.CONFIRMED) = true
    · simp only [hst, if_true] at h
      have hs' := congrArg Prod.fst h
      dsimp only at hs'
      rw [← hs']
    · have hst' : (ride.status == RideStatus.CONFIRMED) = false := by
        revert hst; cases ride.status == RideStatus.CONFIRMED <;> simp
      rw [hst', if_neg (by simp)] at h
      exact absurd h (by simp)

/-- One passenger-booking step keeps request rows untouched-or-confirmed
with a strictly increased version. -/
theorem forall₂_confirmedOrUntouched_map (p : PassengerInfo) :
    ∀ {l0 l : List RideRequest}, List.Forall₂ confirmedOrUntouched l0 l →
    List.Forall₂ confirmedOrUntouched l0 (l.map (fun r =>
      if r.id == p.requestId then
        { r with status := RideStatus.CONFIRMED, version := r.version + 1 } else r)) := by
  intro l0 l h
  induction h with
  | nil => exact List.Forall₂.nil
  | @cons a b l₁ l₂ hR htail ih =>
    refine List.Forall₂.cons ?_ ih
    dsimp only
    by_cases hc : (b.id == p.requestId) = true
    · rw [if_pos hc]
      rcases hR with rfl | ⟨hid, hst, hv⟩
      · exact Or.inr ⟨rfl, rfl, Nat.lt_succ_self _⟩
      · exact Or.inr ⟨hid, rfl, Nat.lt_succ_of_lt hv⟩
    · rw [if_neg hc]
      exact hR

/-- The booking loop keeps request rows untouched-or-confirmed. -/
theorem foldl_applyPassengerBooking_forall₂ (newRideId : String) :
    ∀ (ps : List PassengerInfo) (l0 : List RideRequest) (st : DBState),
    List.Forall₂ confirmedOrUntouched l0 st.requests →
    List.Forall₂ confirmedOrUntouched l0
      ((ps.foldl (applyPassengerBooking newRideId) st).requests) := by
  intro ps
  induction ps with
  | nil => intro l0 st h; exact h
  | cons p ps ih =>
    intro l0 st h
    rw [List.foldl_cons]
    exact ih l0 _ (forall₂_confirmedOrUntouched_map p h)

/-- The booking loop never touches the ride table. -/
theorem foldl_applyPassengerBooking_rides (newRideId : String) :
    ∀ (ps : List PassengerInfo) (st : DBState),
    (ps.foldl (applyPassengerBooking newRideId) st).rides = st.rides := by
  intro ps
  induction ps with
  | nil => intro st; rfl
  | cons p ps ih =>
    intro st
    rw [List.foldl_cons, ih]
    rfl

/-- A successful booking appends the new ride row at version 1 and leaves
each request row untouched or CONFIRMED with a strictly increased version. -/
theorem confirmBooking_ok_versions (s : DBState) (requestId newRideId : String)
    (d : BookingData) (s' : DBState) (out : String)
    (h : confirmBooking s requestId newRideId d = (s', .ok out)) :
    s'.rides.map (fun r => r.version) = s.rides.map (fun r => r.version) ++ [1] ∧
    List.Forall₂ confirmedOrUntouched s.requests s'.requests := by
  unfold confirmBooking at h
  cases hfind : s.requests.find? (fun x => x.id == requestId) with
  | none => simp only [hfind] at h; exact absurd h (by simp)
  | some r =>
    simp only [hfind] at h
    by_cases hst : (r.status == RideStatus.PENDING) = true
    · simp only [hst, if_true] at h
      cases hcab : s.cabs.find? (fun c => c.isAvailable) with
      | none => simp only [hcab] at h; exact absurd h (by simp)
      | some cab =>
        simp only [hcab] at h
        have hs' := congrArg Prod.fst h
        dsimp only at hs'
        constructor
        · rw [← hs', foldl_applyPassengerBooking_rides]
          simp
        · rw [← hs']
          exact foldl_applyPassengerBooking_forall₂ newRideId d.passengers s.requests _
            (List.forall₂_same.mpr (fun x _ => Or.inl rfl))
    · have hst' : (r.status == RideStatus.PENDING) = false := by
        revert hst; cases r.status == RideStatus.PENDING <;> simp
      rw [hst', if_neg (by simp)] at h
      exact absurd h (by simp)

/-- C2 (amended): none of the five coordinator updates conditions on a
stored version — each selects rows by id, status or leg membership only, so
`markNoDriverAvailable` commutes with arbitrary rewrites of the stored
request versions, and the outcomes of `confirmBooking` (under request-version
rewrites) and of `cancelRide` / `completeRide` / `startRide` (under
ride-version rewrites) are unchanged.  On the increment side: a successful
`confirmBooking` inserts the ride row at version 1 and leaves every request
row either untouched or CONFIRMED with a strictly increased version; a
successful `cancelRide` / `completeRide` / `startRide` increments exactly the
id-selected ride row's version by 1; and `markNoDriverAvailable` and the
involved-request status updates of cancel / complete / start never change a
request version. -/
theorem coordinatorVersionDiscipline (s : DBState) (requestId rideId newRideId : String)
    (d : BookingData) (f : ℕ → ℕ) :
    (markNoDriverAvailable (mapRequestVersions f s) requestId
      = mapRequestVersions f (markNoDriverAvailable s requestId)) ∧
    ((markNoDriverAvailable s requestId).requests.map (fun r => r.version)
      = s.requests.map (fun r => r.version)) ∧
    ((confirmBooking (mapRequestVersions f s) requestId newRideId d).2
      = (confirmBooking s requestId newRideId d).2) ∧
    (∀ s' out, confirmBooking s requestId newRideId d = (s', .ok out) →
      s'.rides.map (fun r => r.version) = s.rides.map (fun r => r.version) ++ [1] ∧
      List.Forall₂ confirmedOrUntouched s.requests s'.requests) ∧
    ((cancelRide (mapRideVersions f s) rideId).2 = (cancelRide s rideId).2) ∧
    ((cancelRide s rideId).1.requests.map (fun r => r.version)
      = s.requests.map (fun r => r.version)) ∧
    (∀ s', cancelRide s rideId = (s', .ok ()) → s'.rides = s.rides.map (fun r =>
      if r.id == rideId then
        { r with status := RideStatus.CANCELLED, version := r.version + 1 } else r)) ∧
    ((completeRide (mapRideVersions f s) rideId).2 = (completeRide s rideId).2) ∧
    ((completeRide s rideId).1.requests.map (fun r => r.version)
      = s.requests.map (fun r => r.version)) ∧
    (∀ s', completeRide s rideId = (s', .ok ()) → s'.rides = s.rides.map (fun r =>
      if r.id == rideId then
        { r with status := RideStatus.COMPLETED, version := r.version + 1 } else r)) ∧
    ((startRide (mapRideVersions f s) rideId).2 = (startRide s rideId).2) ∧
    ((startRide s rideId).1.requests.map (fun r => r.version)
      = s.requests.map (fun r => r.version)) ∧
    (∀ s', startRide s rideId = (s', .ok ()) → s'.rides = s.rides.map (fun r =>
      if r.id == rideId then
        { r with status := RideStatus.IN_PROGRESS, version := r.version + 1 } else r)) :=
  ⟨(markNoDriverAvailable_ignores_versions s requestId f).1,
    (markNoDriverAvailable_ignores_versions s requestId f).2,
    confirmBooking_version_oblivious f s requestId newRideId d,
    fun s' out h => confirmBooking_ok_versions s requestId newRideId d s' out h,
    cancelRide_version_oblivious f s rideId,
    cancelRide_preserves_request_versions s rideId,
    fun s' h => cancelRide_ok_rides s rideId s' h,
    completeRide_version_oblivious f s rideId,
    completeRide_preserves_request_versions s rideId,
    fun s' h => completeRide_ok_rides s rideId s' h,
    startRide_version_oblivious f s rideId,
    startRide_preserves_request_versions s rideId,
    fun s' h => startRide_ok_rides s rideId s' h⟩

/-- C2 witness: on concrete stores, a successful cancellation bumps the
version-3 ride row to version 4 while the reset request keeps version 7, and
a successful booking inserts the ride row at version 1 and confirms the
version-1 request at version 2. -/
theorem coordinatorVersionDiscipline_witness :
    cancelRide c2RideDB "ride2" = (c2RideDBCancelled, .ok ()) ∧
    c2RideDBCancelled.rides = c2RideDB.rides.map (fun r =>
      if r.id == "ride2" then
        { r with status := RideStatus.CANCELLED, version := r.version + 1 } else r) ∧
    confirmBooking c2BookDB "r3" "ride3" c2BookData = (c2BookDBBooked, .ok "ride3") ∧
    (c2BookDBBooked.rides.map (fun r => r.version)
        = c2BookDB.rides.map (fun r => r.version) ++ [1] ∧
      List.Forall₂ confirmedOrUntouched c2BookDB.requests c2BookDBBooked.requests) :=
  ⟨of_decide_eq_true (by with_unfolding_all rfl),
    (coordinatorVersionDiscipline c2RideDB "x" "ride2" "y" c2BookData id).2.2.2.2.2.2.1
      c2RideDBCancelled (of_decide_eq_true (by with_unfolding_all rfl)),
    of_decide_eq_true (by with_unfolding_all rfl),
    (coordinatorVersionDiscipline c2BookDB "r3" "z" "ride3" c2BookData id).2.2.2.1
      c2BookDBBooked "ride3" (of_decide_eq_true (by with_unfolding_all rfl))⟩
